import Mathlib

/-!
Verification of the option-string parsing subsystem of `util/options_helper.cc`
(rocksdb). The C++ code is shallowly embedded: strings are `List Char` (with
`String` at the map/API boundary), `size_t` arithmetic is `Nat` with explicit
wrap-around modulo `2 ^ 64` where the C++ can underflow, fallible code returns
`Except`, and an out-of-range `std::string` index access (undefined behaviour
in the source) is modelled by an explicit `none` / `PErr.oob` outcome.
-/

/-- Word size of `size_t` / `uint64_t` on the platforms the code targets. -/
def W64 : Nat := 18446744073709551616

/-- The C locale `isspace` used by the source (space class characters). -/
def isspace (c : Char) : Bool :=
  c = ' ' || c = '\t' || c = '\n' || c = '\x0b' || c = '\x0c' || c = '\r'

/-- `std::string::operator[]`: indices below the length read the character,
index = length reads the terminating null character (well defined since
C++11), any larger index is an out-of-range access (undefined behaviour),
modelled as `none`. -/
def strIdx (s : List Char) (i : Nat) : Option Char :=
  if h : i < s.length then some s[i]
  else if i = s.length then some '\x00'
  else none

/-- `std::string::substr(pos, count)` for the in-range uses in the source. -/
def substr (s : List Char) (pos count : Nat) : List Char :=
  (s.drop pos).take count

/-- Scan of `std::string::find(c, pos)` over the suffix starting at
index `idx`. -/
def strFindAux (l : List Char) (c : Char) (idx : Nat) : Option Nat :=
  match l with
  | [] => none
  | x :: xs => if x = c then some idx else strFindAux xs c (idx + 1)

/-- `std::string::find(c, pos)`: index of the first occurrence of `c` at
position `≥ pos`, or `none` for `npos`. -/
def strFind (s : List Char) (c : Char) (pos : Nat) : Option Nat :=
  strFindAux (s.drop pos) c pos

/-- First loop of `trim` over the suffix at index `start`: the empty
suffix is the well-defined read of the terminating null character (never a
space, so the loop stops). -/
def trimFrontAux (l : List Char) (start e : Nat) : Option Nat :=
  match l with
  | [] => some start
  | x :: xs => if isspace x ∧ start ≤ e then trimFrontAux xs (start + 1) e else some start

/-- First loop of `trim`: advance `start` while the character there is a
space and `start <= end`.  The read happens before the bound test, exactly
as in the source's `&&`; an index beyond the length is out of range. -/
def trimFront (s : List Char) (start e : Nat) : Option Nat :=
  if start ≤ s.length then trimFrontAux (s.drop start) start e else none

/-- Second loop of `trim`: decrement `end` while the character there is a
space and `start <= end`.  The decrement is `size_t` arithmetic, so `0 - 1`
wraps to `2 ^ 64 - 1`; the loop is given fuel (the caller passes
`length + 1`, which suffices on every path actually reachable from `trim`). -/
def trimBack (s : List Char) (fuel start e : Nat) : Option Nat :=
  match fuel with
  | 0 => none
  | f + 1 =>
    match strIdx s e with
    | none => none
    | some c =>
      if isspace c ∧ start ≤ e then trimBack s f start ((e + W64 - 1) % W64)
      else some e

/-- `trim` from the anonymous namespace: computes `start`/`end` indices and
returns the substring between them, or the empty string when they cross.
For the empty input, `end = str.size() - 1` underflows to `2 ^ 64 - 1` and
the second loop reads `str[2 ^ 64 - 1]`, an out-of-range access (`none`). -/
def trim (str : List Char) : Option (List Char) :=
  let e0 := (str.length + W64 - 1) % W64
  match trimFront str 0 e0 with
  | none => none
  | some start =>
    match trimBack str (str.length + 1) start e0 with
    | none => none
    | some e =>
      if start ≤ e then some (substr str start (e - start + 1))
      else some []

/-- Whitespace-skipping scan over the suffix at index `pos`. -/
def skipSpaceAux (l : List Char) (pos : Nat) : Nat :=
  match l with
  | [] => pos
  | x :: xs => if isspace x then skipSpaceAux xs (pos + 1) else pos

/-- Loop skipping whitespace: `while (pos < opts.size() && isspace(opts[pos])) ++pos`. -/
def skipSpace (s : List Char) (pos : Nat) : Nat :=
  skipSpaceAux (s.drop pos) pos

/-- Brace-depth scan over the suffix at index `i`. -/
def braceScanAux (l : List Char) (i count : Nat) : Option Nat :=
  match l with
  | [] => none
  | x :: xs =>
    if x = '{' then braceScanAux xs (i + 1) (count + 1)
    else if x = '}' then
      if count = 1 then some i
      else braceScanAux xs (i + 1) (count - 1)
    else braceScanAux xs (i + 1) count

/-- Brace-matching scan of `StringToMap`: starting just after an opening
brace with depth `count`, return the index of the matching closing brace,
or `none` when the input ends first (mismatched braces). -/
def braceScan (opts : List Char) (bracePos count : Nat) : Option Nat :=
  braceScanAux (opts.drop bracePos) bracePos count

/-- Errors of the embedded subsystem.  `invalidArgument`/`notSupported`
mirror the `Status` values the source returns; `oob` marks the paths on
which the source performs an out-of-range `std::string` index access
(undefined behaviour). -/
inductive PErr where
  | invalidArgument (msg : String)
  | notSupported (msg : String)
  | oob
deriving DecidableEq, Repr

/-- `(*opts_map)[key] = value` on `std::unordered_map`: overwrite the value
of an existing key in place, otherwise add the entry. -/
def mapSet (m : List (String × String)) (k v : String) : List (String × String) :=
  match m with
  | [] => [(k, v)]
  | (k', v') :: rest => if k' = k then (k', v) :: rest else (k', v') :: mapSet rest k v

/-- Main scanning loop of `StringToMap`, one fuel unit per iteration of the
source's `while (pos < opts.size())` loop; `none` means the fuel ran out
(shown unreachable when the fuel exceeds the unconsumed length). -/
def stringToMapLoop (fuel : Nat) (opts : List Char) (pos : Nat)
    (m : List (String × String)) : Option (Except PErr (List (String × String))) :=
  match fuel with
  | 0 => none
  | f + 1 =>
    if pos < opts.length then
      match strFind opts '=' pos with
      | none => some (.error (.invalidArgument "Mismatched key value pair, '=' expected"))
      | some eqPos =>
        match trim (substr opts pos (eqPos - pos)) with
        | none => some (.error .oob)
        | some keyL =>
          if keyL.isEmpty then some (.error (.invalidArgument "Empty key found"))
          else
            let key := String.mk keyL
            let pos1 := skipSpace opts (eqPos + 1)
            if h1 : pos1 < opts.length then
              if opts[pos1] = '{' then
                match braceScan opts (pos1 + 1) 1 with
                | none => some (.error (.invalidArgument "Mismatched curly braces for nested options"))
                | some bracePos =>
                  match trim (substr opts (pos1 + 1) (bracePos - pos1 - 1)) with
                  | none => some (.error .oob)
                  | some valL =>
                    let pos2 := skipSpace opts (bracePos + 1)
                    if pos2 < opts.length ∧ opts.getD pos2 ' ' ≠ ';' then
                      some (.error (.invalidArgument "Unexpected chars after nested options"))
                    else
                      stringToMapLoop f opts (pos2 + 1) (mapSet m key (String.mk valL))
              else
                match strFind opts ';' pos1 with
                | none =>
                  match trim (substr opts pos1 (opts.length - pos1)) with
                  | none => some (.error .oob)
                  | some valL => some (.ok (mapSet m key (String.mk valL)))
                | some scPos =>
                  match trim (substr opts pos1 (scPos - pos1)) with
                  | none => some (.error .oob)
                  | some valL => stringToMapLoop f opts (scPos + 1) (mapSet m key (String.mk valL))
            else
              some (.ok (mapSet m key ""))
    else some (.ok m)

/-- `StringToMap`: trim the whole input, then run the scanning loop.  The
fuel `length + 1` always suffices (each iteration strictly advances `pos`),
so the `getD` default is unreachable. -/
def StringToMap (optsStr : String) : Except PErr (List (String × String)) :=
  match trim optsStr.toList with
  | none => .error .oob
  | some opts => (stringToMapLoop (opts.length + 1) opts 0 []).getD (.error .oob)

/-- Exceptions thrown by the value coercers (`std::invalid_argument`,
`std::out_of_range`), carrying the `what()` message the dispatchers splice
into their error strings. -/
inductive CErr where
  | invalidArgument (what : String)
  | outOfRange (what : String)
deriving DecidableEq, Repr

def CErr.what : CErr → String
  | .invalidArgument w => w
  | .outOfRange w => w

/-- Greedy digit scan over the suffix at index `i`. -/
def digitRunAux (l : List Char) (i acc : Nat) : Nat × Nat :=
  match l with
  | [] => (acc, i)
  | x :: xs =>
    if x.isDigit then digitRunAux xs (i + 1) (10 * acc + (x.toNat - 48))
    else (acc, i)

/-- Greedy base-10 digit scan of `strtoull`/`strtoi` starting at index `i`
with accumulator `acc`; returns the accumulated value and the index just
past the last digit. -/
def digitRunAcc (s : List Char) (i acc : Nat) : Nat × Nat :=
  digitRunAux (s.drop i) i acc

/-- The optional single sign of the `strto*` family: returns the sign and
the index after it. -/
def signParse (s : List Char) (i : Nat) : Bool × Nat :=
  if h : i < s.length then
    if s[i] = '-' then (true, i + 1)
    else if s[i] = '+' then (false, i + 1)
    else (false, i)
  else (false, i)

/-- Digit-run and range handling of `stoull` after whitespace and sign
have been consumed. -/
def stoullAfterSign (s : List Char) (neg : Bool) (i1 : Nat) : Except CErr (Nat × Nat) :=
  if (digitRunAcc s i1 0).2 = i1 then .error (.invalidArgument "stoull")
  else if (digitRunAcc s i1 0).1 ≥ W64 then .error (.outOfRange "stoull")
  else .ok (if neg then (W64 - (digitRunAcc s i1 0).1) % W64 else (digitRunAcc s i1 0).1,
            (digitRunAcc s i1 0).2)

/-- `std::stoull(value, &endchar)` with the default base 10: skip leading
whitespace, one optional sign, then a non-empty digit run; the value is
reduced into `uint64_t` (a `-` sign negates modulo `2 ^ 64`), a magnitude
beyond the type throws `out_of_range`, no digits throws
`invalid_argument`; `what()` messages follow libstdc++. -/
def stoull (s : List Char) : Except CErr (Nat × Nat) :=
  stoullAfterSign s (signParse s (skipSpace s 0)).1 (signParse s (skipSpace s 0)).2

/-- Suffix handling of `ParseUint64` after the numeral parse: if a
character follows the numeral, a `k/K`, `m/M`, `g/G` or `t/T` suffix
shifts the value left by 10, 20, 30 or 40 bits in `uint64_t` arithmetic;
any other trailing character (and anything after a suffix) is ignored. -/
def parseUint64Suffix (s : List Char) (num endchar : Nat) : Nat :=
  if endchar < s.length then
    if s.getD endchar '\x00' = 'k' ∨ s.getD endchar '\x00' = 'K' then num * 2 ^ 10 % W64
    else if s.getD endchar '\x00' = 'm' ∨ s.getD endchar '\x00' = 'M' then num * 2 ^ 20 % W64
    else if s.getD endchar '\x00' = 'g' ∨ s.getD endchar '\x00' = 'G' then num * 2 ^ 30 % W64
    else if s.getD endchar '\x00' = 't' ∨ s.getD endchar '\x00' = 'T' then num * 2 ^ 40 % W64
    else num
  else num

/-- `ParseUint64`: `stoull`, then unit-suffix handling. -/
def ParseUint64 (value : String) : Except CErr Nat :=
  match stoull value.toList with
  | .error e => .error e
  | .ok (num, endchar) => .ok (parseUint64Suffix value.toList num endchar)

/-- `ParseSizeT`: `ParseUint64` cast to `size_t` (64-bit here). -/
def ParseSizeT (value : String) : Except CErr Nat :=
  ParseUint64 value

/-- `ParseUint32`: the 64-bit parse must fit in 32 bits, otherwise the
source throws `std::out_of_range(value)`. -/
def ParseUint32 (value : String) : Except CErr Nat :=
  match ParseUint64 value with
  | .error e => .error e
  | .ok num =>
    if num / 2 ^ 32 = 0 then .ok num
    else .error (.outOfRange value)

/-- Digit-run, sign application and range handling of `stoi` after
whitespace and sign have been consumed. -/
def stoiAfterSign (s : List Char) (neg : Bool) (i1 : Nat) : Except CErr (Int × Nat) :=
  if (digitRunAcc s i1 0).2 = i1 then .error (.invalidArgument "stoi")
  else
    if (if neg then -((digitRunAcc s i1 0).1 : Int) else ((digitRunAcc s i1 0).1 : Int)) <
          -(2 ^ 31 : Int) ∨
        (if neg then -((digitRunAcc s i1 0).1 : Int) else ((digitRunAcc s i1 0).1 : Int)) >
          2 ^ 31 - 1 then
      .error (.outOfRange "stoi")
    else
      .ok (if neg then -((digitRunAcc s i1 0).1 : Int) else ((digitRunAcc s i1 0).1 : Int),
           (digitRunAcc s i1 0).2)

/-- `std::stoi(value, &endchar)`: like `stoull` but signed, with the
`int` range check. -/
def stoi (s : List Char) : Except CErr (Int × Nat) :=
  stoiAfterSign s (signParse s (skipSpace s 0)).1 (signParse s (skipSpace s 0)).2

/-- Two's-complement wrap into `int` for the suffix shifts of `ParseInt`
(the source's `num <<= 10` overflows silently on a 32-bit `int`). -/
def wrap32 (z : Int) : Int :=
  (z + 2 ^ 31) % 2 ^ 32 - 2 ^ 31

/-- Suffix handling of `ParseInt` after the numeral parse: a `k/K`, `m/M`
or `g/G` suffix shifts left by 10, 20 or 30 bits (`t/T` is not recognized
on the signed path); any other trailing character is ignored.  The
source's `num <<= 10/20/30` on `int` wraps in two's complement on
overflow. -/
def parseIntSuffix (s : List Char) (num : Int) (endchar : Nat) : Int :=
  if endchar < s.length then
    if s.getD endchar '\x00' = 'k' ∨ s.getD endchar '\x00' = 'K' then wrap32 (num * 2 ^ 10)
    else if s.getD endchar '\x00' = 'm' ∨ s.getD endchar '\x00' = 'M' then wrap32 (num * 2 ^ 20)
    else if s.getD endchar '\x00' = 'g' ∨ s.getD endchar '\x00' = 'G' then wrap32 (num * 2 ^ 30)
    else num
  else num

/-- `ParseInt`: `stoi`, then signed unit-suffix handling. -/
def ParseInt (value : String) : Except CErr Int :=
  match stoi value.toList with
  | .error e => .error e
  | .ok (num, endchar) => .ok (parseIntSuffix value.toList num endchar)

/-- `ParseBoolean(type, value)`: exact match on the four accepted tokens,
anything else throws `std::invalid_argument(type)`. -/
def ParseBoolean (type value : String) : Except CErr Bool :=
  if value = "true" ∨ value = "1" then .ok true
  else if value = "false" ∨ value = "0" then .ok false
  else .error (.invalidArgument type)

/-- Fraction digit scan of `stod` over the suffix at index `i`. -/
def fracRunAux (l : List Char) (i acc cnt : Nat) : Nat × Nat × Nat :=
  match l with
  | [] => (acc, cnt, i)
  | x :: xs =>
    if x.isDigit then fracRunAux xs (i + 1) (10 * acc + (x.toNat - 48)) (cnt + 1)
    else (acc, cnt, i)

/-- Fraction digit scan of `stod`: accumulates numerator and the count of
fraction digits. -/
def fracRunAcc (s : List Char) (i : Nat) (acc : Nat) (cnt : Nat) : Nat × Nat × Nat :=
  fracRunAux (s.drop i) i acc cnt

/-- `std::stod(value)` (no index argument, so trailing characters are
simply ignored): optional whitespace and sign, decimal mantissa with
optional fraction, optional exponent.  The numeric value is modelled as
the exact rational of the literal; rounding to the nearest `double` is not
modelled (no claim depends on a `double` value). -/
def stod (s : List Char) : Except CErr Rat :=
  let signed := signParse s (skipSpace s 0)
  let ri := digitRunAcc s signed.2 0
  let rf :=
    if (strIdx s ri.2).getD '\x00' = '.' then fracRunAcc s (ri.2 + 1) 0 0
    else (0, 0, ri.2)
  if ri.2 = signed.2 ∧ rf.2.1 = 0 then .error (.invalidArgument "stod")
  else
    let mant : Rat := (ri.1 : Rat) + (rf.1 : Rat) / ((10 : Rat) ^ rf.2.1)
    let mant := if signed.1 then -mant else mant
    let ei := rf.2.2
    if (strIdx s ei).getD '\x00' = 'e' ∨ (strIdx s ei).getD '\x00' = 'E' then
      let esigned := signParse s (ei + 1)
      let re := digitRunAcc s esigned.2 0
      if re.2 = esigned.2 then .ok mant
      else if esigned.1 then .ok (mant / (10 : Rat) ^ re.1)
      else .ok (mant * (10 : Rat) ^ re.1)
    else .ok mant

/-- `ParseDouble`: plain `std::stod`. -/
def ParseDouble (value : String) : Except CErr Rat :=
  stod value.toList

/-- `rocksdb::CompressionType` values recognized by `ParseCompressionType`. -/
inductive CompressionType where
  | kNoCompression
  | kSnappyCompression
  | kZlibCompression
  | kBZip2Compression
  | kLZ4Compression
  | kLZ4HCCompression
deriving DecidableEq, Repr

/-- `BlockBasedTableOptions::IndexType` values. -/
inductive IndexType where
  | kBinarySearch
  | kHashSearch
deriving DecidableEq, Repr

/-- `rocksdb::ChecksumType` values. -/
inductive ChecksumType where
  | kNoChecksum
  | kCRC32c
  | kxxHash
deriving DecidableEq, Repr

/-- `rocksdb::CompactionStyle` values. -/
inductive CompactionStyle where
  | kCompactionStyleLevel
  | kCompactionStyleUniversal
  | kCompactionStyleFIFO
deriving DecidableEq, Repr

/-- `ParseCompressionType`: exact symbolic match or `std::invalid_argument`. -/
def ParseCompressionType (type : String) : Except CErr CompressionType :=
  if type = "kNoCompression" then .ok .kNoCompression
  else if type = "kSnappyCompression" then .ok .kSnappyCompression
  else if type = "kZlibCompression" then .ok .kZlibCompression
  else if type = "kBZip2Compression" then .ok .kBZip2Compression
  else if type = "kLZ4Compression" then .ok .kLZ4Compression
  else if type = "kLZ4HCCompression" then .ok .kLZ4HCCompression
  else .error (.invalidArgument ("Unknown compression type: " ++ type))

/-- `ParseBlockBasedTableIndexType`: exact symbolic match or `std::invalid_argument`. -/
def ParseBlockBasedTableIndexType (type : String) : Except CErr IndexType :=
  if type = "kBinarySearch" then .ok .kBinarySearch
  else if type = "kHashSearch" then .ok .kHashSearch
  else .error (.invalidArgument ("Unknown index type: " ++ type))

/-- `ParseBlockBasedTableChecksumType`: exact symbolic match or `std::invalid_argument`. -/
def ParseBlockBasedTableChecksumType (type : String) : Except CErr ChecksumType :=
  if type = "kNoChecksum" then .ok .kNoChecksum
  else if type = "kCRC32c" then .ok .kCRC32c
  else if type = "kxxHash" then .ok .kxxHash
  else .error (.invalidArgument ("Unknown checksum type: " ++ type))

/-- `ParseCompactionStyle`: exact symbolic match or `std::invalid_argument`. -/
def ParseCompactionStyle (type : String) : Except CErr CompactionStyle :=
  if type = "kCompactionStyleLevel" then .ok .kCompactionStyleLevel
  else if type = "kCompactionStyleUniversal" then .ok .kCompactionStyleUniversal
  else if type = "kCompactionStyleFIFO" then .ok .kCompactionStyleFIFO
  else .error (.invalidArgument ("unknown compaction style: " ++ type))

/-- The `CompressionOptions` sub-aggregate written by the
`compression_opts` key. -/
structure CompressionOptions where
  window_bits : Int
  level : Int
  strategy : Int
deriving DecidableEq, Repr

/-- Outcome of one per-key body inside the dispatcher's try-block: success,
a thrown coercer exception (`ex`, converted to a value-parse error by the
surrounding catch), or a directly returned `Status` (`st`, which the catch
does not touch). -/
inductive BErr where
  | ex (e : CErr)
  | st (e : PErr)
deriving DecidableEq, Repr

/-- Lift a coercer call followed by a field assignment into a per-key body. -/
def hlift {α β : Type} (x : Except CErr α) (f : α → β) : Except BErr β :=
  match x with
  | .ok a => .ok (f a)
  | .error e => .error (.ex e)

/-- The dispatcher's catch-block: a thrown coercer exception becomes
`InvalidArgument("error parsing <key>:<what>")`; a directly returned
`Status` passes through. -/
def wrapCatch {σ : Type} (k : String) (x : Except BErr σ) : Except PErr σ :=
  match x with
  | .ok a => .ok a
  | .error (.st e) => .error e
  | .error (.ex e) => .error (.invalidArgument ("error parsing " ++ k ++ ":" ++ e.what))

/-- Iterate a dispatcher over the raw option map, starting from the working
copy of the base configuration; the first error aborts the whole operation. -/
def applyMap {σ : Type} (d : String → String → σ → Except PErr σ)
    (m : List (String × String)) (o : σ) : Except PErr σ :=
  match m with
  | [] => .ok o
  | (k, v) :: rest =>
    match d k v o with
    | .ok o' => applyMap d rest o'
    | .error e => .error e

/-- A hit of the suffix scan lies between the start index and the end of
the scanned suffix. -/
theorem strFindAux_some {l : List Char} {c : Char} {idx i : Nat}
    (h : strFindAux l c idx = some i) : idx ≤ i ∧ i < idx + l.length := by
  induction l generalizing idx with
  | nil => cases h
  | cons x xs ih =>
    rw [strFindAux] at h
    by_cases he : x = c
    · rw [if_pos he] at h
      cases h
      simp
    · rw [if_neg he] at h
      have := ih h
      simp only [List.length_cons]
      omega

/-- A hit of `strFind` lies between `pos` and the end of the string. -/
theorem strFind_some {s : List Char} {c : Char} {pos i : Nat}
    (h : strFind s c pos = some i) : pos ≤ i ∧ i < s.length := by
  unfold strFind at h
  have := strFindAux_some h
  rw [List.length_drop] at this
  by_cases hp : pos ≤ s.length
  · omega
  · rw [List.drop_eq_nil_of_le (by omega)] at h
    cases h

/-- The colon-splitting loop of the `max_bytes_for_level_multiplier_additional`
key: split on `:` and `ParseInt` each segment. -/
def parseIntListLoop (s : List Char) (start : Nat) : Except CErr (List Int) :=
  match hf : strFind s ':' start with
  | none => do
    pure [← ParseInt (String.mk (substr s start (s.length - start)))]
  | some e => do
    let x ← ParseInt (String.mk (substr s start (e - start)))
    let rest ← parseIntListLoop s (e + 1)
    pure (x :: rest)
termination_by s.length + 1 - start
decreasing_by have := strFind_some hf; omega

/-- The colon-splitting loop of the `compression_per_level` key. -/
def parseCompressionListLoop (s : List Char) (start : Nat) : Except CErr (List CompressionType) :=
  match hf : strFind s ':' start with
  | none => do
    pure [← ParseCompressionType (String.mk (substr s start (s.length - start)))]
  | some e => do
    let x ← ParseCompressionType (String.mk (substr s start (e - start)))
    let rest ← parseCompressionListLoop s (e + 1)
    pure (x :: rest)
termination_by s.length + 1 - start
decreasing_by have := strFind_some hf; omega
/-- The table-domain configuration aggregate: the fields of `rocksdb::BlockBasedTableOptions` written by `GetBlockBasedTableOptionsFromMap`.  A cache is modelled by its capacity, a filter policy by (bits_per_key, use_block_based_builder). -/
structure BlockBasedTableOptions where
  cache_index_and_filter_blocks : Bool
  index_type : IndexType
  hash_index_allow_collision : Bool
  checksum : ChecksumType
  no_block_cache : Bool
  block_cache : Option Nat
  block_cache_compressed : Option Nat
  block_size : Nat
  block_size_deviation : Int
  block_restart_interval : Int
  filter_policy : Option (Int × Bool)
  whole_key_filtering : Bool
deriving DecidableEq, Repr

/-- The namespace-domain configuration aggregate: the fields of `rocksdb::ColumnFamilyOptions` written by `GetColumnFamilyOptionsFromMap`.  The installed table factory is modelled by the `BlockBasedTableOptions` it wraps, a prefix extractor by its fixed length. -/
structure ColumnFamilyOptions where
  write_buffer_size : Nat
  arena_block_size : Nat
  memtable_prefix_bloom_bits : Nat
  memtable_prefix_bloom_probes : Nat
  memtable_prefix_bloom_huge_page_tlb_size : Nat
  max_successive_merges : Nat
  filter_deletes : Bool
  max_write_buffer_number : Int
  inplace_update_num_locks : Nat
  disable_auto_compactions : Bool
  soft_rate_limit : Rat
  hard_rate_limit : Rat
  level0_file_num_compaction_trigger : Int
  level0_slowdown_writes_trigger : Int
  level0_stop_writes_trigger : Int
  max_grandparent_overlap_factor : Int
  expanded_compaction_factor : Int
  source_compaction_factor : Int
  target_file_size_base : Int
  target_file_size_multiplier : Int
  max_bytes_for_level_base : Nat
  max_bytes_for_level_multiplier : Int
  max_bytes_for_level_multiplier_additional : List Int
  max_mem_compaction_level : Int
  verify_checksums_in_compaction : Bool
  max_sequential_skip_in_iterations : Nat
  table_factory : Option BlockBasedTableOptions
  min_write_buffer_number_to_merge : Int
  compression : CompressionType
  compression_per_level : List CompressionType
  compression_opts : CompressionOptions
  num_levels : Int
  purge_redundant_kvs_while_flush : Bool
  compaction_style : CompactionStyle
  compaction_options_fifo_max_table_files_size : Nat
  bloom_locality : Nat
  min_partial_merge_operands : Nat
  inplace_update_support : Bool
  prefix_extractor : Option Int
deriving DecidableEq

/-- The engine-domain configuration aggregate: the fields of `rocksdb::DBOptions` written by `GetDBOptionsFromMap`. -/
structure DBOptions where
  create_if_missing : Bool
  create_missing_column_families : Bool
  error_if_exists : Bool
  paranoid_checks : Bool
  max_open_files : Int
  max_total_wal_size : Nat
  disableDataSync : Bool
  use_fsync : Bool
  db_log_dir : String
  wal_dir : String
  delete_obsolete_files_period_micros : Nat
  max_background_compactions : Int
  max_background_flushes : Int
  max_log_file_size : Nat
  log_file_time_to_roll : Nat
  keep_log_file_num : Nat
  max_manifest_file_size : Nat
  table_cache_numshardbits : Int
  table_cache_remove_scan_count_limit : Int
  WAL_ttl_seconds : Nat
  WAL_size_limit_MB : Nat
  manifest_preallocation_size : Nat
  allow_os_buffer : Bool
  allow_mmap_reads : Bool
  allow_mmap_writes : Bool
  is_fd_close_on_exec : Bool
  skip_log_error_on_recovery : Bool
  stats_dump_period_sec : Nat
  advise_random_on_open : Bool
  db_write_buffer_size : Nat
  use_adaptive_mutex : Bool
  bytes_per_sync : Nat
deriving DecidableEq

/-- FieldVal: a common codomain for the per-key field projections, so the
partial-update (frame) property can quantify over recognized keys. -/
inductive FieldVal where
  | vB (b : Bool)
  | vI (i : Int)
  | vN (n : Nat)
  | vR (r : Rat)
  | vS (s : String)
  | vIL (l : List Int)
  | vCT (c : CompressionType)
  | vCTL (l : List CompressionType)
  | vCO (c : CompressionOptions)
  | vCS (c : CompactionStyle)
  | vTF (t : Option BlockBasedTableOptions)
  | vPE (p : Option Int)
  | vIT (t : IndexType)
  | vCK (c : ChecksumType)
  | vON (n : Option Nat)
  | vFP (p : Option (Int × Bool))
deriving DecidableEq, Repr

/-- The `filter_policy` key of the table dispatcher: requires the literal
`bloomfilter:` tag, then a colon, then `bits_per_key` and
`use_block_based_builder`, each trimmed and coerced. -/
def filterPolicyBody (v : String) (o : BlockBasedTableOptions) : Except BErr BlockBasedTableOptions :=
  if substr v.toList 0 ("bloomfilter:".toList.length) = "bloomfilter:".toList then
    match strFind v.toList ':' ("bloomfilter:".toList.length) with
    | none => .error (.st (.invalidArgument "Invalid filter policy config, missing bits_per_key"))
    | some p =>
      match trim (substr v.toList ("bloomfilter:".toList.length) (p - "bloomfilter:".toList.length)) with
      | none => .error (.st .oob)
      | some bitsL =>
        match ParseInt (String.mk bitsL) with
        | .error ce => .error (.ex ce)
        | .ok bits =>
          match trim (substr v.toList (p + 1) (v.toList.length - (p + 1))) with
          | none => .error (.st .oob)
          | some bbL =>
            match ParseBoolean "use_block_based_builder" (String.mk bbL) with
            | .error ce => .error (.ex ce)
            | .ok ub => .ok {o with filter_policy := some (bits, ub)}
  else .error (.st (.invalidArgument "Invalid filter policy name"))
/-- Assignment action of the `cache_index_and_filter_blocks` key. -/
def bbtSet_cache_index_and_filter_blocks (v : String) (o : BlockBasedTableOptions) : Except BErr BlockBasedTableOptions :=
  hlift (ParseBoolean "cache_index_and_filter_blocks" v) (fun x => {o with cache_index_and_filter_blocks := x})

/-- Assignment action of the `index_type` key. -/
def bbtSet_index_type (v : String) (o : BlockBasedTableOptions) : Except BErr BlockBasedTableOptions :=
  hlift (ParseBlockBasedTableIndexType v) (fun x => {o with index_type := x})

/-- Assignment action of the `hash_index_allow_collision` key. -/
def bbtSet_hash_index_allow_collision (v : String) (o : BlockBasedTableOptions) : Except BErr BlockBasedTableOptions :=
  hlift (ParseBoolean "hash_index_allow_collision" v) (fun x => {o with hash_index_allow_collision := x})

/-- Assignment action of the `checksum` key. -/
def bbtSet_checksum (v : String) (o : BlockBasedTableOptions) : Except BErr BlockBasedTableOptions :=
  hlift (ParseBlockBasedTableChecksumType v) (fun x => {o with checksum := x})

/-- Assignment action of the `no_block_cache` key. -/
def bbtSet_no_block_cache (v : String) (o : BlockBasedTableOptions) : Except BErr BlockBasedTableOptions :=
  hlift (ParseBoolean "no_block_cache" v) (fun x => {o with no_block_cache := x})

/-- Assignment action of the `block_cache` key. -/
def bbtSet_block_cache (v : String) (o : BlockBasedTableOptions) : Except BErr BlockBasedTableOptions :=
  hlift (ParseSizeT v) (fun x => {o with block_cache := some x})

/-- Assignment action of the `block_cache_compressed` key. -/
def bbtSet_block_cache_compressed (v : String) (o : BlockBasedTableOptions) : Except BErr BlockBasedTableOptions :=
  hlift (ParseSizeT v) (fun x => {o with block_cache_compressed := some x})

/-- Assignment action of the `block_size` key. -/
def bbtSet_block_size (v : String) (o : BlockBasedTableOptions) : Except BErr BlockBasedTableOptions :=
  hlift (ParseSizeT v) (fun x => {o with block_size := x})

/-- Assignment action of the `block_size_deviation` key. -/
def bbtSet_block_size_deviation (v : String) (o : BlockBasedTableOptions) : Except BErr BlockBasedTableOptions :=
  hlift (ParseInt v) (fun x => {o with block_size_deviation := x})

/-- Assignment action of the `block_restart_interval` key. -/
def bbtSet_block_restart_interval (v : String) (o : BlockBasedTableOptions) : Except BErr BlockBasedTableOptions :=
  hlift (ParseInt v) (fun x => {o with block_restart_interval := x})

/-- Assignment action of the `whole_key_filtering` key. -/
def bbtSet_whole_key_filtering (v : String) (o : BlockBasedTableOptions) : Except BErr BlockBasedTableOptions :=
  hlift (ParseBoolean "whole_key_filtering" v) (fun x => {o with whole_key_filtering := x})

/-- The table-domain registry: each recognized key paired with its assignment action, in the source's test order. -/
def bbtHandlers : List (String × (String → BlockBasedTableOptions → Except BErr BlockBasedTableOptions)) := [
  ("cache_index_and_filter_blocks", bbtSet_cache_index_and_filter_blocks),
  ("index_type", bbtSet_index_type),
  ("hash_index_allow_collision", bbtSet_hash_index_allow_collision),
  ("checksum", bbtSet_checksum),
  ("no_block_cache", bbtSet_no_block_cache),
  ("block_cache", bbtSet_block_cache),
  ("block_cache_compressed", bbtSet_block_cache_compressed),
  ("block_size", bbtSet_block_size),
  ("block_size_deviation", bbtSet_block_size_deviation),
  ("block_restart_interval", bbtSet_block_restart_interval),
  ("filter_policy", filterPolicyBody),
  ("whole_key_filtering", bbtSet_whole_key_filtering)
]

/-- Per-key body of `GetBlockBasedTableOptionsFromMap` (the try-block): the if-else chain of the source, as first-match lookup in the registry. -/
def bbtBody (k v : String) (o : BlockBasedTableOptions) : Except BErr BlockBasedTableOptions :=
  match List.lookup k bbtHandlers with
  | some hdl => hdl v o
  | none => .error (.st (.invalidArgument ("Unrecognized option: " ++ k)))

/-- One key of `GetBlockBasedTableOptionsFromMap`: the try-block body
wrapped in the catch. -/
def bbtDispatch (k v : String) (o : BlockBasedTableOptions) : Except PErr BlockBasedTableOptions :=
  wrapCatch k (bbtBody k v o)

/-- `GetBlockBasedTableOptionsFromMap`: work on a copy of the base table
configuration, dispatching every pair of the raw option map. -/
def GetBlockBasedTableOptionsFromMap (table_options : BlockBasedTableOptions)
    (opts_map : List (String × String)) : Except PErr BlockBasedTableOptions :=
  applyMap bbtDispatch opts_map table_options

/-- Modelled from the spec: the fresh default table configuration
`BlockBasedTableOptions()` that the nested dispatch starts from.  Its field
values live in `include/rocksdb/table.h`, outside the sources at hand; the
spec only calls it "a fresh default table configuration", so the values
here are an arbitrary concrete choice and no claim depends on them. -/
def defaultBlockBasedTableOptions : BlockBasedTableOptions where
  cache_index_and_filter_blocks := false
  index_type := .kBinarySearch
  hash_index_allow_collision := false
  checksum := .kCRC32c
  no_block_cache := false
  block_cache := none
  block_cache_compressed := none
  block_size := 4096
  block_size_deviation := 10
  block_restart_interval := 16
  filter_policy := none
  whole_key_filtering := true

/-- `GetBlockBasedTableOptionsFromString`: tokenize, then dispatch. -/
def GetBlockBasedTableOptionsFromString (table_options : BlockBasedTableOptions)
    (opts_str : String) : Except PErr BlockBasedTableOptions :=
  match StringToMap opts_str with
  | .error e => .error e
  | .ok m => GetBlockBasedTableOptionsFromMap table_options m

/-- The `block_based_table_factory` key of the namespace dispatcher:
tokenize the nested block against a fresh default table configuration and
install the result as the table factory; a nested failure propagates
unchanged. -/
def bbtFactoryBody (v : String) (o : ColumnFamilyOptions) : Except BErr ColumnFamilyOptions :=
  match GetBlockBasedTableOptionsFromString defaultBlockBasedTableOptions v with
  | .ok t => .ok {o with table_factory := some t}
  | .error e => .error (.st e)

/-- The `compression_opts` key: three colon-separated `int` fields;
a missing separator or an empty third field is an `InvalidArgument`
returned directly (not thrown). -/
def compressionOptsBody (v : String) (o : ColumnFamilyOptions) : Except BErr ColumnFamilyOptions :=
  match strFind v.toList ':' 0 with
  | none => .error (.st (.invalidArgument ("invalid config value for: " ++ "compression_opts")))
  | some e1 =>
    match ParseInt (String.mk (substr v.toList 0 e1)) with
    | .error ce => .error (.ex ce)
    | .ok wb =>
      match strFind v.toList ':' (e1 + 1) with
      | none => .error (.st (.invalidArgument ("invalid config value for: " ++ "compression_opts")))
      | some e2 =>
        match ParseInt (String.mk (substr v.toList (e1 + 1) (e2 - (e1 + 1)))) with
        | .error ce => .error (.ex ce)
        | .ok lv =>
          if e2 + 1 ≥ v.toList.length then
            .error (.st (.invalidArgument ("invalid config value for: " ++ "compression_opts")))
          else
            match ParseInt (String.mk (substr v.toList (e2 + 1) (v.toList.length - (e2 + 1)))) with
            | .error ce => .error (.ex ce)
            | .ok st2 => .ok {o with compression_opts := ⟨wb, lv, st2⟩}

/-- The `prefix_extractor` key: requires the literal `fixed:` tag, then a
trimmed `int` fixed-prefix length; extra text after the numeral is ignored
by `ParseInt`. -/
def prefixExtractorBody (v : String) (o : ColumnFamilyOptions) : Except BErr ColumnFamilyOptions :=
  if substr v.toList 0 ("fixed:".toList.length) = "fixed:".toList then
    match trim (substr v.toList ("fixed:".toList.length) (v.toList.length - "fixed:".toList.length)) with
    | none => .error (.st .oob)
    | some t =>
      match ParseInt (String.mk t) with
      | .error ce => .error (.ex ce)
      | .ok n => .ok {o with prefix_extractor := some n}
  else .error (.st (.invalidArgument ("Invalid Prefix Extractor type: " ++ v)))
/-- Assignment action of the `write_buffer_size` key. -/
def cfSet_write_buffer_size (v : String) (o : ColumnFamilyOptions) : Except BErr ColumnFamilyOptions :=
  hlift (ParseSizeT v) (fun x => {o with write_buffer_size := x})

/-- Assignment action of the `arena_block_size` key. -/
def cfSet_arena_block_size (v : String) (o : ColumnFamilyOptions) : Except BErr ColumnFamilyOptions :=
  hlift (ParseSizeT v) (fun x => {o with arena_block_size := x})

/-- Assignment action of the `memtable_prefix_bloom_bits` key. -/
def cfSet_memtable_prefix_bloom_bits (v : String) (o : ColumnFamilyOptions) : Except BErr ColumnFamilyOptions :=
  hlift (ParseUint32 v) (fun x => {o with memtable_prefix_bloom_bits := x})

/-- Assignment action of the `memtable_prefix_bloom_probes` key. -/
def cfSet_memtable_prefix_bloom_probes (v : String) (o : ColumnFamilyOptions) : Except BErr ColumnFamilyOptions :=
  hlift (ParseUint32 v) (fun x => {o with memtable_prefix_bloom_probes := x})

/-- Assignment action of the `memtable_prefix_bloom_huge_page_tlb_size` key. -/
def cfSet_memtable_prefix_bloom_huge_page_tlb_size (v : String) (o : ColumnFamilyOptions) : Except BErr ColumnFamilyOptions :=
  hlift (ParseSizeT v) (fun x => {o with memtable_prefix_bloom_huge_page_tlb_size := x})

/-- Assignment action of the `max_successive_merges` key. -/
def cfSet_max_successive_merges (v : String) (o : ColumnFamilyOptions) : Except BErr ColumnFamilyOptions :=
  hlift (ParseSizeT v) (fun x => {o with max_successive_merges := x})

/-- Assignment action of the `filter_deletes` key. -/
def cfSet_filter_deletes (v : String) (o : ColumnFamilyOptions) : Except BErr ColumnFamilyOptions :=
  hlift (ParseBoolean "filter_deletes" v) (fun x => {o with filter_deletes := x})

/-- Assignment action of the `max_write_buffer_number` key. -/
def cfSet_max_write_buffer_number (v : String) (o : ColumnFamilyOptions) : Except BErr ColumnFamilyOptions :=
  hlift (ParseInt v) (fun x => {o with max_write_buffer_number := x})

/-- Assignment action of the `inplace_update_num_locks` key. -/
def cfSet_inplace_update_num_locks (v : String) (o : ColumnFamilyOptions) : Except BErr ColumnFamilyOptions :=
  hlift (ParseSizeT v) (fun x => {o with inplace_update_num_locks := x})

/-- Assignment action of the `disable_auto_compactions` key. -/
def cfSet_disable_auto_compactions (v : String) (o : ColumnFamilyOptions) : Except BErr ColumnFamilyOptions :=
  hlift (ParseBoolean "disable_auto_compactions" v) (fun x => {o with disable_auto_compactions := x})

/-- Assignment action of the `soft_rate_limit` key. -/
def cfSet_soft_rate_limit (v : String) (o : ColumnFamilyOptions) : Except BErr ColumnFamilyOptions :=
  hlift (ParseDouble v) (fun x => {o with soft_rate_limit := x})

/-- Assignment action of the `hard_rate_limit` key. -/
def cfSet_hard_rate_limit (v : String) (o : ColumnFamilyOptions) : Except BErr ColumnFamilyOptions :=
  hlift (ParseDouble v) (fun x => {o with hard_rate_limit := x})

/-- Assignment action of the `level0_file_num_compaction_trigger` key. -/
def cfSet_level0_file_num_compaction_trigger (v : String) (o : ColumnFamilyOptions) : Except BErr ColumnFamilyOptions :=
  hlift (ParseInt v) (fun x => {o with level0_file_num_compaction_trigger := x})

/-- Assignment action of the `level0_slowdown_writes_trigger` key. -/
def cfSet_level0_slowdown_writes_trigger (v : String) (o : ColumnFamilyOptions) : Except BErr ColumnFamilyOptions :=
  hlift (ParseInt v) (fun x => {o with level0_slowdown_writes_trigger := x})

/-- Assignment action of the `level0_stop_writes_trigger` key. -/
def cfSet_level0_stop_writes_trigger (v : String) (o : ColumnFamilyOptions) : Except BErr ColumnFamilyOptions :=
  hlift (ParseInt v) (fun x => {o with level0_stop_writes_trigger := x})

/-- Assignment action of the `max_grandparent_overlap_factor` key. -/
def cfSet_max_grandparent_overlap_factor (v : String) (o : ColumnFamilyOptions) : Except BErr ColumnFamilyOptions :=
  hlift (ParseInt v) (fun x => {o with max_grandparent_overlap_factor := x})

/-- Assignment action of the `expanded_compaction_factor` key. -/
def cfSet_expanded_compaction_factor (v : String) (o : ColumnFamilyOptions) : Except BErr ColumnFamilyOptions :=
  hlift (ParseInt v) (fun x => {o with expanded_compaction_factor := x})

/-- Assignment action of the `source_compaction_factor` key. -/
def cfSet_source_compaction_factor (v : String) (o : ColumnFamilyOptions) : Except BErr ColumnFamilyOptions :=
  hlift (ParseInt v) (fun x => {o with source_compaction_factor := x})

/-- Assignment action of the `target_file_size_base` key. -/
def cfSet_target_file_size_base (v : String) (o : ColumnFamilyOptions) : Except BErr ColumnFamilyOptions :=
  hlift (ParseInt v) (fun x => {o with target_file_size_base := x})

/-- Assignment action of the `target_file_size_multiplier` key. -/
def cfSet_target_file_size_multiplier (v : String) (o : ColumnFamilyOptions) : Except BErr ColumnFamilyOptions :=
  hlift (ParseInt v) (fun x => {o with target_file_size_multiplier := x})

/-- Assignment action of the `max_bytes_for_level_base` key. -/
def cfSet_max_bytes_for_level_base (v : String) (o : ColumnFamilyOptions) : Except BErr ColumnFamilyOptions :=
  hlift (ParseUint64 v) (fun x => {o with max_bytes_for_level_base := x})

/-- Assignment action of the `max_bytes_for_level_multiplier` key. -/
def cfSet_max_bytes_for_level_multiplier (v : String) (o : ColumnFamilyOptions) : Except BErr ColumnFamilyOptions :=
  hlift (ParseInt v) (fun x => {o with max_bytes_for_level_multiplier := x})

/-- Assignment action of the `max_bytes_for_level_multiplier_additional` key. -/
def cfSet_max_bytes_for_level_multiplier_additional (v : String) (o : ColumnFamilyOptions) : Except BErr ColumnFamilyOptions :=
  hlift (parseIntListLoop v.toList 0) (fun x => {o with max_bytes_for_level_multiplier_additional := x})

/-- Assignment action of the `max_mem_compaction_level` key. -/
def cfSet_max_mem_compaction_level (v : String) (o : ColumnFamilyOptions) : Except BErr ColumnFamilyOptions :=
  hlift (ParseInt v) (fun x => {o with max_mem_compaction_level := x})

/-- Assignment action of the `verify_checksums_in_compaction` key. -/
def cfSet_verify_checksums_in_compaction (v : String) (o : ColumnFamilyOptions) : Except BErr ColumnFamilyOptions :=
  hlift (ParseBoolean "verify_checksums_in_compaction" v) (fun x => {o with verify_checksums_in_compaction := x})

/-- Assignment action of the `max_sequential_skip_in_iterations` key. -/
def cfSet_max_sequential_skip_in_iterations (v : String) (o : ColumnFamilyOptions) : Except BErr ColumnFamilyOptions :=
  hlift (ParseUint64 v) (fun x => {o with max_sequential_skip_in_iterations := x})

/-- Assignment action of the `min_write_buffer_number_to_merge` key. -/
def cfSet_min_write_buffer_number_to_merge (v : String) (o : ColumnFamilyOptions) : Except BErr ColumnFamilyOptions :=
  hlift (ParseInt v) (fun x => {o with min_write_buffer_number_to_merge := x})

/-- Assignment action of the `compression` key. -/
def cfSet_compression (v : String) (o : ColumnFamilyOptions) : Except BErr ColumnFamilyOptions :=
  hlift (ParseCompressionType v) (fun x => {o with compression := x})

/-- Assignment action of the `compression_per_level` key. -/
def cfSet_compression_per_level (v : String) (o : ColumnFamilyOptions) : Except BErr ColumnFamilyOptions :=
  hlift (parseCompressionListLoop v.toList 0) (fun x => {o with compression_per_level := x})

/-- Assignment action of the `num_levels` key. -/
def cfSet_num_levels (v : String) (o : ColumnFamilyOptions) : Except BErr ColumnFamilyOptions :=
  hlift (ParseInt v) (fun x => {o with num_levels := x})

/-- Assignment action of the `purge_redundant_kvs_while_flush` key. -/
def cfSet_purge_redundant_kvs_while_flush (v : String) (o : ColumnFamilyOptions) : Except BErr ColumnFamilyOptions :=
  hlift (ParseBoolean "purge_redundant_kvs_while_flush" v) (fun x => {o with purge_redundant_kvs_while_flush := x})

/-- Assignment action of the `compaction_style` key. -/
def cfSet_compaction_style (v : String) (o : ColumnFamilyOptions) : Except BErr ColumnFamilyOptions :=
  hlift (ParseCompactionStyle v) (fun x => {o with compaction_style := x})

/-- Assignment action of the `compaction_options_fifo` key. -/
def cfSet_compaction_options_fifo (v : String) (o : ColumnFamilyOptions) : Except BErr ColumnFamilyOptions :=
  hlift (ParseUint64 v) (fun x => {o with compaction_options_fifo_max_table_files_size := x})

/-- Assignment action of the `bloom_locality` key. -/
def cfSet_bloom_locality (v : String) (o : ColumnFamilyOptions) : Except BErr ColumnFamilyOptions :=
  hlift (ParseUint32 v) (fun x => {o with bloom_locality := x})

/-- Assignment action of the `min_partial_merge_operands` key. -/
def cfSet_min_partial_merge_operands (v : String) (o : ColumnFamilyOptions) : Except BErr ColumnFamilyOptions :=
  hlift (ParseUint32 v) (fun x => {o with min_partial_merge_operands := x})

/-- Assignment action of the `inplace_update_support` key. -/
def cfSet_inplace_update_support (v : String) (o : ColumnFamilyOptions) : Except BErr ColumnFamilyOptions :=
  hlift (ParseBoolean "inplace_update_support" v) (fun x => {o with inplace_update_support := x})

/-- The namespace-domain registry: the memtable, compaction and misc sub-registries in their priority order, then the namespace-specific keys, in the source's test order. -/
def cfHandlers : List (String × (String → ColumnFamilyOptions → Except BErr ColumnFamilyOptions)) := [
  ("write_buffer_size", cfSet_write_buffer_size),
  ("arena_block_size", cfSet_arena_block_size),
  ("memtable_prefix_bloom_bits", cfSet_memtable_prefix_bloom_bits),
  ("memtable_prefix_bloom_probes", cfSet_memtable_prefix_bloom_probes),
  ("memtable_prefix_bloom_huge_page_tlb_size", cfSet_memtable_prefix_bloom_huge_page_tlb_size),
  ("max_successive_merges", cfSet_max_successive_merges),
  ("filter_deletes", cfSet_filter_deletes),
  ("max_write_buffer_number", cfSet_max_write_buffer_number),
  ("inplace_update_num_locks", cfSet_inplace_update_num_locks),
  ("disable_auto_compactions", cfSet_disable_auto_compactions),
  ("soft_rate_limit", cfSet_soft_rate_limit),
  ("hard_rate_limit", cfSet_hard_rate_limit),
  ("level0_file_num_compaction_trigger", cfSet_level0_file_num_compaction_trigger),
  ("level0_slowdown_writes_trigger", cfSet_level0_slowdown_writes_trigger),
  ("level0_stop_writes_trigger", cfSet_level0_stop_writes_trigger),
  ("max_grandparent_overlap_factor", cfSet_max_grandparent_overlap_factor),
  ("expanded_compaction_factor", cfSet_expanded_compaction_factor),
  ("source_compaction_factor", cfSet_source_compaction_factor),
  ("target_file_size_base", cfSet_target_file_size_base),
  ("target_file_size_multiplier", cfSet_target_file_size_multiplier),
  ("max_bytes_for_level_base", cfSet_max_bytes_for_level_base),
  ("max_bytes_for_level_multiplier", cfSet_max_bytes_for_level_multiplier),
  ("max_bytes_for_level_multiplier_additional", cfSet_max_bytes_for_level_multiplier_additional),
  ("max_mem_compaction_level", cfSet_max_mem_compaction_level),
  ("verify_checksums_in_compaction", cfSet_verify_checksums_in_compaction),
  ("max_sequential_skip_in_iterations", cfSet_max_sequential_skip_in_iterations),
  ("block_based_table_factory", bbtFactoryBody),
  ("min_write_buffer_number_to_merge", cfSet_min_write_buffer_number_to_merge),
  ("compression", cfSet_compression),
  ("compression_per_level", cfSet_compression_per_level),
  ("compression_opts", compressionOptsBody),
  ("num_levels", cfSet_num_levels),
  ("purge_redundant_kvs_while_flush", cfSet_purge_redundant_kvs_while_flush),
  ("compaction_style", cfSet_compaction_style),
  ("compaction_options_universal", fun _ _ => .error (.st (.notSupported ("Not supported: " ++ "compaction_options_universal")))),
  ("compaction_options_fifo", cfSet_compaction_options_fifo),
  ("bloom_locality", cfSet_bloom_locality),
  ("min_partial_merge_operands", cfSet_min_partial_merge_operands),
  ("inplace_update_support", cfSet_inplace_update_support),
  ("prefix_extractor", prefixExtractorBody)
]

/-- Per-key body of `GetColumnFamilyOptionsFromMap` (the try-block): the if-else chain of the source, as first-match lookup in the registry. -/
def cfBody (k v : String) (o : ColumnFamilyOptions) : Except BErr ColumnFamilyOptions :=
  match List.lookup k cfHandlers with
  | some hdl => hdl v o
  | none => .error (.st (.invalidArgument ("Unrecognized option: " ++ k)))

/-- One key of `GetColumnFamilyOptionsFromMap`. -/
def cfDispatch (k v : String) (o : ColumnFamilyOptions) : Except PErr ColumnFamilyOptions :=
  wrapCatch k (cfBody k v o)

/-- `GetColumnFamilyOptionsFromMap`: work on a copy of the caller's base
configuration, dispatching every pair of the raw option map. -/
def GetColumnFamilyOptionsFromMap (base_options : ColumnFamilyOptions)
    (opts_map : List (String × String)) : Except PErr ColumnFamilyOptions :=
  applyMap cfDispatch opts_map base_options

/-- `GetColumnFamilyOptionsFromString`: tokenize, then dispatch. -/
def GetColumnFamilyOptionsFromString (base_options : ColumnFamilyOptions)
    (opts_str : String) : Except PErr ColumnFamilyOptions :=
  match StringToMap opts_str with
  | .error e => .error e
  | .ok m => GetColumnFamilyOptionsFromMap base_options m
/-- Assignment action of the `create_if_missing` key. -/
def dbSet_create_if_missing (v : String) (o : DBOptions) : Except BErr DBOptions :=
  hlift (ParseBoolean "create_if_missing" v) (fun x => {o with create_if_missing := x})

/-- Assignment action of the `create_missing_column_families` key. -/
def dbSet_create_missing_column_families (v : String) (o : DBOptions) : Except BErr DBOptions :=
  hlift (ParseBoolean "create_missing_column_families" v) (fun x => {o with create_missing_column_families := x})

/-- Assignment action of the `error_if_exists` key. -/
def dbSet_error_if_exists (v : String) (o : DBOptions) : Except BErr DBOptions :=
  hlift (ParseBoolean "error_if_exists" v) (fun x => {o with error_if_exists := x})

/-- Assignment action of the `paranoid_checks` key. -/
def dbSet_paranoid_checks (v : String) (o : DBOptions) : Except BErr DBOptions :=
  hlift (ParseBoolean "paranoid_checks" v) (fun x => {o with paranoid_checks := x})

/-- Assignment action of the `max_open_files` key. -/
def dbSet_max_open_files (v : String) (o : DBOptions) : Except BErr DBOptions :=
  hlift (ParseInt v) (fun x => {o with max_open_files := x})

/-- Assignment action of the `max_total_wal_size` key. -/
def dbSet_max_total_wal_size (v : String) (o : DBOptions) : Except BErr DBOptions :=
  hlift (ParseUint64 v) (fun x => {o with max_total_wal_size := x})

/-- Assignment action of the `disable_data_sync` key. -/
def dbSet_disable_data_sync (v : String) (o : DBOptions) : Except BErr DBOptions :=
  hlift (ParseBoolean "disable_data_sync" v) (fun x => {o with disableDataSync := x})

/-- Assignment action of the `use_fsync` key. -/
def dbSet_use_fsync (v : String) (o : DBOptions) : Except BErr DBOptions :=
  hlift (ParseBoolean "use_fsync" v) (fun x => {o with use_fsync := x})

/-- Assignment action of the `db_log_dir` key. -/
def dbSet_db_log_dir (v : String) (o : DBOptions) : Except BErr DBOptions :=
  .ok {o with db_log_dir := v}

/-- Assignment action of the `wal_dir` key. -/
def dbSet_wal_dir (v : String) (o : DBOptions) : Except BErr DBOptions :=
  .ok {o with wal_dir := v}

/-- Assignment action of the `delete_obsolete_files_period_micros` key. -/
def dbSet_delete_obsolete_files_period_micros (v : String) (o : DBOptions) : Except BErr DBOptions :=
  hlift (ParseUint64 v) (fun x => {o with delete_obsolete_files_period_micros := x})

/-- Assignment action of the `max_background_compactions` key. -/
def dbSet_max_background_compactions (v : String) (o : DBOptions) : Except BErr DBOptions :=
  hlift (ParseInt v) (fun x => {o with max_background_compactions := x})

/-- Assignment action of the `max_background_flushes` key. -/
def dbSet_max_background_flushes (v : String) (o : DBOptions) : Except BErr DBOptions :=
  hlift (ParseInt v) (fun x => {o with max_background_flushes := x})

/-- Assignment action of the `max_log_file_size` key. -/
def dbSet_max_log_file_size (v : String) (o : DBOptions) : Except BErr DBOptions :=
  hlift (ParseSizeT v) (fun x => {o with max_log_file_size := x})

/-- Assignment action of the `log_file_time_to_roll` key. -/
def dbSet_log_file_time_to_roll (v : String) (o : DBOptions) : Except BErr DBOptions :=
  hlift (ParseSizeT v) (fun x => {o with log_file_time_to_roll := x})

/-- Assignment action of the `keep_log_file_num` key. -/
def dbSet_keep_log_file_num (v : String) (o : DBOptions) : Except BErr DBOptions :=
  hlift (ParseSizeT v) (fun x => {o with keep_log_file_num := x})

/-- Assignment action of the `max_manifest_file_size` key. -/
def dbSet_max_manifest_file_size (v : String) (o : DBOptions) : Except BErr DBOptions :=
  hlift (ParseUint64 v) (fun x => {o with max_manifest_file_size := x})

/-- Assignment action of the `table_cache_numshardbits` key. -/
def dbSet_table_cache_numshardbits (v : String) (o : DBOptions) : Except BErr DBOptions :=
  hlift (ParseInt v) (fun x => {o with table_cache_numshardbits := x})

/-- Assignment action of the `table_cache_remove_scan_count_limit` key. -/
def dbSet_table_cache_remove_scan_count_limit (v : String) (o : DBOptions) : Except BErr DBOptions :=
  hlift (ParseInt v) (fun x => {o with table_cache_remove_scan_count_limit := x})

/-- Assignment action of the `WAL_ttl_seconds` key. -/
def dbSet_WAL_ttl_seconds (v : String) (o : DBOptions) : Except BErr DBOptions :=
  hlift (ParseUint64 v) (fun x => {o with WAL_ttl_seconds := x})

/-- Assignment action of the `WAL_size_limit_MB` key. -/
def dbSet_WAL_size_limit_MB (v : String) (o : DBOptions) : Except BErr DBOptions :=
  hlift (ParseUint64 v) (fun x => {o with WAL_size_limit_MB := x})

/-- Assignment action of the `manifest_preallocation_size` key. -/
def dbSet_manifest_preallocation_size (v : String) (o : DBOptions) : Except BErr DBOptions :=
  hlift (ParseSizeT v) (fun x => {o with manifest_preallocation_size := x})

/-- Assignment action of the `allow_os_buffer` key. -/
def dbSet_allow_os_buffer (v : String) (o : DBOptions) : Except BErr DBOptions :=
  hlift (ParseBoolean "allow_os_buffer" v) (fun x => {o with allow_os_buffer := x})

/-- Assignment action of the `allow_mmap_reads` key. -/
def dbSet_allow_mmap_reads (v : String) (o : DBOptions) : Except BErr DBOptions :=
  hlift (ParseBoolean "allow_mmap_reads" v) (fun x => {o with allow_mmap_reads := x})

/-- Assignment action of the `allow_mmap_writes` key. -/
def dbSet_allow_mmap_writes (v : String) (o : DBOptions) : Except BErr DBOptions :=
  hlift (ParseBoolean "allow_mmap_writes" v) (fun x => {o with allow_mmap_writes := x})

/-- Assignment action of the `is_fd_close_on_exec` key. -/
def dbSet_is_fd_close_on_exec (v : String) (o : DBOptions) : Except BErr DBOptions :=
  hlift (ParseBoolean "is_fd_close_on_exec" v) (fun x => {o with is_fd_close_on_exec := x})

/-- Assignment action of the `skip_log_error_on_recovery` key. -/
def dbSet_skip_log_error_on_recovery (v : String) (o : DBOptions) : Except BErr DBOptions :=
  hlift (ParseBoolean "skip_log_error_on_recovery" v) (fun x => {o with skip_log_error_on_recovery := x})

/-- Assignment action of the `stats_dump_period_sec` key. -/
def dbSet_stats_dump_period_sec (v : String) (o : DBOptions) : Except BErr DBOptions :=
  hlift (ParseUint32 v) (fun x => {o with stats_dump_period_sec := x})

/-- Assignment action of the `advise_random_on_open` key. -/
def dbSet_advise_random_on_open (v : String) (o : DBOptions) : Except BErr DBOptions :=
  hlift (ParseBoolean "advise_random_on_open" v) (fun x => {o with advise_random_on_open := x})

/-- Assignment action of the `db_write_buffer_size` key. -/
def dbSet_db_write_buffer_size (v : String) (o : DBOptions) : Except BErr DBOptions :=
  hlift (ParseUint64 v) (fun x => {o with db_write_buffer_size := x})

/-- Assignment action of the `use_adaptive_mutex` key. -/
def dbSet_use_adaptive_mutex (v : String) (o : DBOptions) : Except BErr DBOptions :=
  hlift (ParseBoolean "use_adaptive_mutex" v) (fun x => {o with use_adaptive_mutex := x})

/-- Assignment action of the `bytes_per_sync` key. -/
def dbSet_bytes_per_sync (v : String) (o : DBOptions) : Except BErr DBOptions :=
  hlift (ParseUint64 v) (fun x => {o with bytes_per_sync := x})

/-- The engine-domain registry: each recognized key paired with its assignment action, in the source's test order. -/
def dbHandlers : List (String × (String → DBOptions → Except BErr DBOptions)) := [
  ("create_if_missing", dbSet_create_if_missing),
  ("create_missing_column_families", dbSet_create_missing_column_families),
  ("error_if_exists", dbSet_error_if_exists),
  ("paranoid_checks", dbSet_paranoid_checks),
  ("max_open_files", dbSet_max_open_files),
  ("max_total_wal_size", dbSet_max_total_wal_size),
  ("disable_data_sync", dbSet_disable_data_sync),
  ("use_fsync", dbSet_use_fsync),
  ("db_paths", fun _ _ => .error (.st (.notSupported ("Not supported: " ++ "db_paths")))),
  ("db_log_dir", dbSet_db_log_dir),
  ("wal_dir", dbSet_wal_dir),
  ("delete_obsolete_files_period_micros", dbSet_delete_obsolete_files_period_micros),
  ("max_background_compactions", dbSet_max_background_compactions),
  ("max_background_flushes", dbSet_max_background_flushes),
  ("max_log_file_size", dbSet_max_log_file_size),
  ("log_file_time_to_roll", dbSet_log_file_time_to_roll),
  ("keep_log_file_num", dbSet_keep_log_file_num),
  ("max_manifest_file_size", dbSet_max_manifest_file_size),
  ("table_cache_numshardbits", dbSet_table_cache_numshardbits),
  ("table_cache_remove_scan_count_limit", dbSet_table_cache_remove_scan_count_limit),
  ("WAL_ttl_seconds", dbSet_WAL_ttl_seconds),
  ("WAL_size_limit_MB", dbSet_WAL_size_limit_MB),
  ("manifest_preallocation_size", dbSet_manifest_preallocation_size),
  ("allow_os_buffer", dbSet_allow_os_buffer),
  ("allow_mmap_reads", dbSet_allow_mmap_reads),
  ("allow_mmap_writes", dbSet_allow_mmap_writes),
  ("is_fd_close_on_exec", dbSet_is_fd_close_on_exec),
  ("skip_log_error_on_recovery", dbSet_skip_log_error_on_recovery),
  ("stats_dump_period_sec", dbSet_stats_dump_period_sec),
  ("advise_random_on_open", dbSet_advise_random_on_open),
  ("db_write_buffer_size", dbSet_db_write_buffer_size),
  ("use_adaptive_mutex", dbSet_use_adaptive_mutex),
  ("bytes_per_sync", dbSet_bytes_per_sync)
]

/-- Per-key body of `GetDBOptionsFromMap` (the try-block): the if-else chain of the source, as first-match lookup in the registry. -/
def dbBody (k v : String) (o : DBOptions) : Except BErr DBOptions :=
  match List.lookup k dbHandlers with
  | some hdl => hdl v o
  | none => .error (.st (.invalidArgument ("Unrecognized option: " ++ k)))


/-- One key of `GetDBOptionsFromMap`. -/
def dbDispatch (k v : String) (o : DBOptions) : Except PErr DBOptions :=
  wrapCatch k (dbBody k v o)

/-- `GetDBOptionsFromMap`: work on a copy of the caller's base
configuration, dispatching every pair of the raw option map. -/
def GetDBOptionsFromMap (base_options : DBOptions)
    (opts_map : List (String × String)) : Except PErr DBOptions :=
  applyMap dbDispatch opts_map base_options

/-- `GetDBOptionsFromString`: tokenize, then dispatch. -/
def GetDBOptionsFromString (base_options : DBOptions)
    (opts_str : String) : Except PErr DBOptions :=
  match StringToMap opts_str with
  | .error e => .error e
  | .ok m => GetDBOptionsFromMap base_options m

/-- A concrete namespace configuration to instantiate closed theorems at.
The library's real defaults live outside the sources at hand; the theorems
quantifying over bases do not depend on these values. -/
def sampleCFOptions : ColumnFamilyOptions where
  write_buffer_size := 4194304
  arena_block_size := 0
  memtable_prefix_bloom_bits := 0
  memtable_prefix_bloom_probes := 6
  memtable_prefix_bloom_huge_page_tlb_size := 0
  max_successive_merges := 0
  filter_deletes := false
  max_write_buffer_number := 2
  inplace_update_num_locks := 10000
  disable_auto_compactions := false
  soft_rate_limit := 0
  hard_rate_limit := 0
  level0_file_num_compaction_trigger := 4
  level0_slowdown_writes_trigger := 20
  level0_stop_writes_trigger := 24
  max_grandparent_overlap_factor := 10
  expanded_compaction_factor := 25
  source_compaction_factor := 1
  target_file_size_base := 2097152
  target_file_size_multiplier := 1
  max_bytes_for_level_base := 10485760
  max_bytes_for_level_multiplier := 10
  max_bytes_for_level_multiplier_additional := []
  max_mem_compaction_level := 2
  verify_checksums_in_compaction := true
  max_sequential_skip_in_iterations := 8
  table_factory := none
  min_write_buffer_number_to_merge := 1
  compression := .kSnappyCompression
  compression_per_level := []
  compression_opts := ⟨-14, -1, 0⟩
  num_levels := 7
  purge_redundant_kvs_while_flush := true
  compaction_style := .kCompactionStyleLevel
  compaction_options_fifo_max_table_files_size := 1073741824
  bloom_locality := 0
  min_partial_merge_operands := 2
  inplace_update_support := false
  prefix_extractor := none

/-- A concrete engine configuration to instantiate closed theorems at. -/
def sampleDBOptions : DBOptions where
  create_if_missing := false
  create_missing_column_families := false
  error_if_exists := false
  paranoid_checks := false
  max_open_files := 5000
  max_total_wal_size := 0
  disableDataSync := false
  use_fsync := false
  db_log_dir := ""
  wal_dir := ""
  delete_obsolete_files_period_micros := 21600000000
  max_background_compactions := 1
  max_background_flushes := 1
  max_log_file_size := 0
  log_file_time_to_roll := 0
  keep_log_file_num := 1000
  max_manifest_file_size := 18446744073709551615
  table_cache_numshardbits := 4
  table_cache_remove_scan_count_limit := 16
  WAL_ttl_seconds := 0
  WAL_size_limit_MB := 0
  manifest_preallocation_size := 4194304
  allow_os_buffer := true
  allow_mmap_reads := false
  allow_mmap_writes := false
  is_fd_close_on_exec := true
  skip_log_error_on_recovery := false
  stats_dump_period_sec := 3600
  advise_random_on_open := true
  db_write_buffer_size := 0
  use_adaptive_mutex := false
  bytes_per_sync := 0
/-- Each key the namespace dispatcher recognizes, paired with the projection of the field it assigns (the reserved unsupported key has no field). -/
def cfProjs : List (String × (ColumnFamilyOptions → FieldVal)) := [
  ("write_buffer_size", fun o => .vN o.write_buffer_size),
  ("arena_block_size", fun o => .vN o.arena_block_size),
  ("memtable_prefix_bloom_bits", fun o => .vN o.memtable_prefix_bloom_bits),
  ("memtable_prefix_bloom_probes", fun o => .vN o.memtable_prefix_bloom_probes),
  ("memtable_prefix_bloom_huge_page_tlb_size", fun o => .vN o.memtable_prefix_bloom_huge_page_tlb_size),
  ("max_successive_merges", fun o => .vN o.max_successive_merges),
  ("filter_deletes", fun o => .vB o.filter_deletes),
  ("max_write_buffer_number", fun o => .vI o.max_write_buffer_number),
  ("inplace_update_num_locks", fun o => .vN o.inplace_update_num_locks),
  ("disable_auto_compactions", fun o => .vB o.disable_auto_compactions),
  ("soft_rate_limit", fun o => .vR o.soft_rate_limit),
  ("hard_rate_limit", fun o => .vR o.hard_rate_limit),
  ("level0_file_num_compaction_trigger", fun o => .vI o.level0_file_num_compaction_trigger),
  ("level0_slowdown_writes_trigger", fun o => .vI o.level0_slowdown_writes_trigger),
  ("level0_stop_writes_trigger", fun o => .vI o.level0_stop_writes_trigger),
  ("max_grandparent_overlap_factor", fun o => .vI o.max_grandparent_overlap_factor),
  ("expanded_compaction_factor", fun o => .vI o.expanded_compaction_factor),
  ("source_compaction_factor", fun o => .vI o.source_compaction_factor),
  ("target_file_size_base", fun o => .vI o.target_file_size_base),
  ("target_file_size_multiplier", fun o => .vI o.target_file_size_multiplier),
  ("max_bytes_for_level_base", fun o => .vN o.max_bytes_for_level_base),
  ("max_bytes_for_level_multiplier", fun o => .vI o.max_bytes_for_level_multiplier),
  ("max_bytes_for_level_multiplier_additional", fun o => .vIL o.max_bytes_for_level_multiplier_additional),
  ("max_mem_compaction_level", fun o => .vI o.max_mem_compaction_level),
  ("verify_checksums_in_compaction", fun o => .vB o.verify_checksums_in_compaction),
  ("max_sequential_skip_in_iterations", fun o => .vN o.max_sequential_skip_in_iterations),
  ("block_based_table_factory", fun o => .vTF o.table_factory),
  ("min_write_buffer_number_to_merge", fun o => .vI o.min_write_buffer_number_to_merge),
  ("compression", fun o => .vCT o.compression),
  ("compression_per_level", fun o => .vCTL o.compression_per_level),
  ("compression_opts", fun o => .vCO o.compression_opts),
  ("num_levels", fun o => .vI o.num_levels),
  ("purge_redundant_kvs_while_flush", fun o => .vB o.purge_redundant_kvs_while_flush),
  ("compaction_style", fun o => .vCS o.compaction_style),
  ("compaction_options_fifo", fun o => .vN o.compaction_options_fifo_max_table_files_size),
  ("bloom_locality", fun o => .vN o.bloom_locality),
  ("min_partial_merge_operands", fun o => .vN o.min_partial_merge_operands),
  ("inplace_update_support", fun o => .vB o.inplace_update_support),
  ("prefix_extractor", fun o => .vPE o.prefix_extractor)
]

/-- Each key the engine dispatcher recognizes, paired with the projection of the field it assigns (the reserved unsupported key has no field). -/
def dbProjs : List (String × (DBOptions → FieldVal)) := [
  ("create_if_missing", fun o => .vB o.create_if_missing),
  ("create_missing_column_families", fun o => .vB o.create_missing_column_families),
  ("error_if_exists", fun o => .vB o.error_if_exists),
  ("paranoid_checks", fun o => .vB o.paranoid_checks),
  ("max_open_files", fun o => .vI o.max_open_files),
  ("max_total_wal_size", fun o => .vN o.max_total_wal_size),
  ("disable_data_sync", fun o => .vB o.disableDataSync),
  ("use_fsync", fun o => .vB o.use_fsync),
  ("db_log_dir", fun o => .vS o.db_log_dir),
  ("wal_dir", fun o => .vS o.wal_dir),
  ("delete_obsolete_files_period_micros", fun o => .vN o.delete_obsolete_files_period_micros),
  ("max_background_compactions", fun o => .vI o.max_background_compactions),
  ("max_background_flushes", fun o => .vI o.max_background_flushes),
  ("max_log_file_size", fun o => .vN o.max_log_file_size),
  ("log_file_time_to_roll", fun o => .vN o.log_file_time_to_roll),
  ("keep_log_file_num", fun o => .vN o.keep_log_file_num),
  ("max_manifest_file_size", fun o => .vN o.max_manifest_file_size),
  ("table_cache_numshardbits", fun o => .vI o.table_cache_numshardbits),
  ("table_cache_remove_scan_count_limit", fun o => .vI o.table_cache_remove_scan_count_limit),
  ("WAL_ttl_seconds", fun o => .vN o.WAL_ttl_seconds),
  ("WAL_size_limit_MB", fun o => .vN o.WAL_size_limit_MB),
  ("manifest_preallocation_size", fun o => .vN o.manifest_preallocation_size),
  ("allow_os_buffer", fun o => .vB o.allow_os_buffer),
  ("allow_mmap_reads", fun o => .vB o.allow_mmap_reads),
  ("allow_mmap_writes", fun o => .vB o.allow_mmap_writes),
  ("is_fd_close_on_exec", fun o => .vB o.is_fd_close_on_exec),
  ("skip_log_error_on_recovery", fun o => .vB o.skip_log_error_on_recovery),
  ("stats_dump_period_sec", fun o => .vN o.stats_dump_period_sec),
  ("advise_random_on_open", fun o => .vB o.advise_random_on_open),
  ("db_write_buffer_size", fun o => .vN o.db_write_buffer_size),
  ("use_adaptive_mutex", fun o => .vB o.use_adaptive_mutex),
  ("bytes_per_sync", fun o => .vN o.bytes_per_sync)
]

/-- All keys the namespace dispatcher recognizes, including the reserved unsupported one. -/
def cfOptionKeys : List String := ["write_buffer_size", "arena_block_size", "memtable_prefix_bloom_bits", "memtable_prefix_bloom_probes", "memtable_prefix_bloom_huge_page_tlb_size", "max_successive_merges", "filter_deletes", "max_write_buffer_number", "inplace_update_num_locks", "disable_auto_compactions", "soft_rate_limit", "hard_rate_limit", "level0_file_num_compaction_trigger", "level0_slowdown_writes_trigger", "level0_stop_writes_trigger", "max_grandparent_overlap_factor", "expanded_compaction_factor", "source_compaction_factor", "target_file_size_base", "target_file_size_multiplier", "max_bytes_for_level_base", "max_bytes_for_level_multiplier", "max_bytes_for_level_multiplier_additional", "max_mem_compaction_level", "verify_checksums_in_compaction", "max_sequential_skip_in_iterations", "block_based_table_factory", "min_write_buffer_number_to_merge", "compression", "compression_per_level", "compression_opts", "num_levels", "purge_redundant_kvs_while_flush", "compaction_style", "compaction_options_universal", "compaction_options_fifo", "bloom_locality", "min_partial_merge_operands", "inplace_update_support", "prefix_extractor"]

/-- All keys the engine dispatcher recognizes, including the reserved unsupported one. -/
def dbOptionKeys : List String := ["create_if_missing", "create_missing_column_families", "error_if_exists", "paranoid_checks", "max_open_files", "max_total_wal_size", "disable_data_sync", "use_fsync", "db_paths", "db_log_dir", "wal_dir", "delete_obsolete_files_period_micros", "max_background_compactions", "max_background_flushes", "max_log_file_size", "log_file_time_to_roll", "keep_log_file_num", "max_manifest_file_size", "table_cache_numshardbits", "table_cache_remove_scan_count_limit", "WAL_ttl_seconds", "WAL_size_limit_MB", "manifest_preallocation_size", "allow_os_buffer", "allow_mmap_reads", "allow_mmap_writes", "is_fd_close_on_exec", "skip_log_error_on_recovery", "stats_dump_period_sec", "advise_random_on_open", "db_write_buffer_size", "use_adaptive_mutex", "bytes_per_sync"]

/-- All keys the table dispatcher recognizes. -/
def bbtOptionKeys : List String := ["cache_index_and_filter_blocks", "index_type", "hash_index_allow_collision", "checksum", "no_block_cache", "block_cache", "block_cache_compressed", "block_size", "block_size_deviation", "block_restart_interval", "filter_policy", "whole_key_filtering"]

/-- A successful `hlift` is a successful coercion followed by the
assignment. -/
theorem hlift_ok {α β : Type} {x : Except CErr α} {f : α → β} {b : β}
    (h : hlift x f = .ok b) : ∃ a, b = f a := by
  cases x with
  | ok a =>
    simp only [hlift, Except.ok.injEq] at h
    exact ⟨a, h.symm⟩
  | error e => simp [hlift] at h

/-- A successful catch-wrapped body is a successful body. -/
theorem wrapCatch_ok {σ : Type} {k : String} {x : Except BErr σ} {a : σ}
    (h : wrapCatch k x = .ok a) : x = .ok a := by
  match x with
  | .ok b => simp only [wrapCatch, Except.ok.injEq] at h; rw [h]
  | .error (.st e) => simp [wrapCatch] at h
  | .error (.ex e) => simp [wrapCatch] at h

/-- A successful nested table-factory dispatch only writes `table_factory`. -/
theorem bbtFactoryBody_ok {v : String} {o o' : ColumnFamilyOptions}
    (h : bbtFactoryBody v o = .ok o') :
    ∃ t, o' = {o with table_factory := some t} := by
  unfold bbtFactoryBody at h
  split at h
  · cases h; exact ⟨_, rfl⟩
  · cases h

/-- A successful `compression_opts` body only writes `compression_opts`. -/
theorem compressionOptsBody_ok {v : String} {o o' : ColumnFamilyOptions}
    (h : compressionOptsBody v o = .ok o') :
    ∃ c, o' = {o with compression_opts := c} := by
  unfold compressionOptsBody at h
  split at h
  · cases h
  · split at h
    · cases h
    · split at h
      · cases h
      · split at h
        · cases h
        · split at h
          · cases h
          · split at h
            · cases h
            · cases h; exact ⟨_, rfl⟩

/-- A successful `prefix_extractor` body only writes `prefix_extractor`. -/
theorem prefixExtractorBody_ok {v : String} {o o' : ColumnFamilyOptions}
    (h : prefixExtractorBody v o = .ok o') :
    ∃ n, o' = {o with prefix_extractor := some n} := by
  unfold prefixExtractorBody at h
  split at h
  · split at h
    · cases h
    · split at h
      · cases h
      · cases h; exact ⟨_, rfl⟩
  · cases h

/-- A successful `filter_policy` body only writes `filter_policy`. -/
theorem filterPolicyBody_ok {v : String} {o o' : BlockBasedTableOptions}
    (h : filterPolicyBody v o = .ok o') :
    ∃ p, o' = {o with filter_policy := some p} := by
  unfold filterPolicyBody at h
  split at h
  · split at h
    · cases h
    · split at h
      · cases h
      · split at h
        · cases h
        · split at h
          · cases h
          · split at h
            · cases h
            · cases h; exact ⟨_, rfl⟩
  · cases h
theorem cfSet_write_buffer_size_frame {v : String} {o o' : ColumnFamilyOptions}
    (h : cfSet_write_buffer_size v o = .ok o') :
    ∀ p ∈ cfProjs, p.1 ≠ "write_buffer_size" → p.2 o' = p.2 o := by
  obtain ⟨x, rfl⟩ := hlift_ok h
  intro p hp hne
  simp only [cfProjs, List.not_mem_nil, List.mem_cons, or_false] at hp
  rcases hp with e1 | e2 | e3 | e4 | e5 | e6 | e7 | e8 | e9 | e10 | e11 | e12 | e13 | e14 | e15 | e16 | e17 | e18 | e19 | e20 | e21 | e22 | e23 | e24 | e25 | e26 | e27 | e28 | e29 | e30 | e31 | e32 | e33 | e34 | e35 | e36 | e37 | e38 | e39
  all_goals subst_vars
  all_goals first | exact absurd rfl hne | rfl

theorem cfSet_arena_block_size_frame {v : String} {o o' : ColumnFamilyOptions}
    (h : cfSet_arena_block_size v o = .ok o') :
    ∀ p ∈ cfProjs, p.1 ≠ "arena_block_size" → p.2 o' = p.2 o := by
  obtain ⟨x, rfl⟩ := hlift_ok h
  intro p hp hne
  simp only [cfProjs, List.not_mem_nil, List.mem_cons, or_false] at hp
  rcases hp with e1 | e2 | e3 | e4 | e5 | e6 | e7 | e8 | e9 | e10 | e11 | e12 | e13 | e14 | e15 | e16 | e17 | e18 | e19 | e20 | e21 | e22 | e23 | e24 | e25 | e26 | e27 | e28 | e29 | e30 | e31 | e32 | e33 | e34 | e35 | e36 | e37 | e38 | e39
  all_goals subst_vars
  all_goals first | exact absurd rfl hne | rfl

theorem cfSet_memtable_prefix_bloom_bits_frame {v : String} {o o' : ColumnFamilyOptions}
    (h : cfSet_memtable_prefix_bloom_bits v o = .ok o') :
    ∀ p ∈ cfProjs, p.1 ≠ "memtable_prefix_bloom_bits" → p.2 o' = p.2 o := by
  obtain ⟨x, rfl⟩ := hlift_ok h
  intro p hp hne
  simp only [cfProjs, List.not_mem_nil, List.mem_cons, or_false] at hp
  rcases hp with e1 | e2 | e3 | e4 | e5 | e6 | e7 | e8 | e9 | e10 | e11 | e12 | e13 | e14 | e15 | e16 | e17 | e18 | e19 | e20 | e21 | e22 | e23 | e24 | e25 | e26 | e27 | e28 | e29 | e30 | e31 | e32 | e33 | e34 | e35 | e36 | e37 | e38 | e39
  all_goals subst_vars
  all_goals first | exact absurd rfl hne | rfl

theorem cfSet_memtable_prefix_bloom_probes_frame {v : String} {o o' : ColumnFamilyOptions}
    (h : cfSet_memtable_prefix_bloom_probes v o = .ok o') :
    ∀ p ∈ cfProjs, p.1 ≠ "memtable_prefix_bloom_probes" → p.2 o' = p.2 o := by
  obtain ⟨x, rfl⟩ := hlift_ok h
  intro p hp hne
  simp only [cfProjs, List.not_mem_nil, List.mem_cons, or_false] at hp
  rcases hp with e1 | e2 | e3 | e4 | e5 | e6 | e7 | e8 | e9 | e10 | e11 | e12 | e13 | e14 | e15 | e16 | e17 | e18 | e19 | e20 | e21 | e22 | e23 | e24 | e25 | e26 | e27 | e28 | e29 | e30 | e31 | e32 | e33 | e34 | e35 | e36 | e37 | e38 | e39
  all_goals subst_vars
  all_goals first | exact absurd rfl hne | rfl

theorem cfSet_memtable_prefix_bloom_huge_page_tlb_size_frame {v : String} {o o' : ColumnFamilyOptions}
    (h : cfSet_memtable_prefix_bloom_huge_page_tlb_size v o = .ok o') :
    ∀ p ∈ cfProjs, p.1 ≠ "memtable_prefix_bloom_huge_page_tlb_size" → p.2 o' = p.2 o := by
  obtain ⟨x, rfl⟩ := hlift_ok h
  intro p hp hne
  simp only [cfProjs, List.not_mem_nil, List.mem_cons, or_false] at hp
  rcases hp with e1 | e2 | e3 | e4 | e5 | e6 | e7 | e8 | e9 | e10 | e11 | e12 | e13 | e14 | e15 | e16 | e17 | e18 | e19 | e20 | e21 | e22 | e23 | e24 | e25 | e26 | e27 | e28 | e29 | e30 | e31 | e32 | e33 | e34 | e35 | e36 | e37 | e38 | e39
  all_goals subst_vars
  all_goals first | exact absurd rfl hne | rfl

theorem cfSet_max_successive_merges_frame {v : String} {o o' : ColumnFamilyOptions}
    (h : cfSet_max_successive_merges v o = .ok o') :
    ∀ p ∈ cfProjs, p.1 ≠ "max_successive_merges" → p.2 o' = p.2 o := by
  obtain ⟨x, rfl⟩ := hlift_ok h
  intro p hp hne
  simp only [cfProjs, List.not_mem_nil, List.mem_cons, or_false] at hp
  rcases hp with e1 | e2 | e3 | e4 | e5 | e6 | e7 | e8 | e9 | e10 | e11 | e12 | e13 | e14 | e15 | e16 | e17 | e18 | e19 | e20 | e21 | e22 | e23 | e24 | e25 | e26 | e27 | e28 | e29 | e30 | e31 | e32 | e33 | e34 | e35 | e36 | e37 | e38 | e39
  all_goals subst_vars
  all_goals first | exact absurd rfl hne | rfl

theorem cfSet_filter_deletes_frame {v : String} {o o' : ColumnFamilyOptions}
    (h : cfSet_filter_deletes v o = .ok o') :
    ∀ p ∈ cfProjs, p.1 ≠ "filter_deletes" → p.2 o' = p.2 o := by
  obtain ⟨x, rfl⟩ := hlift_ok h
  intro p hp hne
  simp only [cfProjs, List.not_mem_nil, List.mem_cons, or_false] at hp
  rcases hp with e1 | e2 | e3 | e4 | e5 | e6 | e7 | e8 | e9 | e10 | e11 | e12 | e13 | e14 | e15 | e16 | e17 | e18 | e19 | e20 | e21 | e22 | e23 | e24 | e25 | e26 | e27 | e28 | e29 | e30 | e31 | e32 | e33 | e34 | e35 | e36 | e37 | e38 | e39
  all_goals subst_vars
  all_goals first | exact absurd rfl hne | rfl

theorem cfSet_max_write_buffer_number_frame {v : String} {o o' : ColumnFamilyOptions}
    (h : cfSet_max_write_buffer_number v o = .ok o') :
    ∀ p ∈ cfProjs, p.1 ≠ "max_write_buffer_number" → p.2 o' = p.2 o := by
  obtain ⟨x, rfl⟩ := hlift_ok h
  intro p hp hne
  simp only [cfProjs, List.not_mem_nil, List.mem_cons, or_false] at hp
  rcases hp with e1 | e2 | e3 | e4 | e5 | e6 | e7 | e8 | e9 | e10 | e11 | e12 | e13 | e14 | e15 | e16 | e17 | e18 | e19 | e20 | e21 | e22 | e23 | e24 | e25 | e26 | e27 | e28 | e29 | e30 | e31 | e32 | e33 | e34 | e35 | e36 | e37 | e38 | e39
  all_goals subst_vars
  all_goals first | exact absurd rfl hne | rfl

theorem cfSet_inplace_update_num_locks_frame {v : String} {o o' : ColumnFamilyOptions}
    (h : cfSet_inplace_update_num_locks v o = .ok o') :
    ∀ p ∈ cfProjs, p.1 ≠ "inplace_update_num_locks" → p.2 o' = p.2 o := by
  obtain ⟨x, rfl⟩ := hlift_ok h
  intro p hp hne
  simp only [cfProjs, List.not_mem_nil, List.mem_cons, or_false] at hp
  rcases hp with e1 | e2 | e3 | e4 | e5 | e6 | e7 | e8 | e9 | e10 | e11 | e12 | e13 | e14 | e15 | e16 | e17 | e18 | e19 | e20 | e21 | e22 | e23 | e24 | e25 | e26 | e27 | e28 | e29 | e30 | e31 | e32 | e33 | e34 | e35 | e36 | e37 | e38 | e39
  all_goals subst_vars
  all_goals first | exact absurd rfl hne | rfl

theorem cfSet_disable_auto_compactions_frame {v : String} {o o' : ColumnFamilyOptions}
    (h : cfSet_disable_auto_compactions v o = .ok o') :
    ∀ p ∈ cfProjs, p.1 ≠ "disable_auto_compactions" → p.2 o' = p.2 o := by
  obtain ⟨x, rfl⟩ := hlift_ok h
  intro p hp hne
  simp only [cfProjs, List.not_mem_nil, List.mem_cons, or_false] at hp
  rcases hp with e1 | e2 | e3 | e4 | e5 | e6 | e7 | e8 | e9 | e10 | e11 | e12 | e13 | e14 | e15 | e16 | e17 | e18 | e19 | e20 | e21 | e22 | e23 | e24 | e25 | e26 | e27 | e28 | e29 | e30 | e31 | e32 | e33 | e34 | e35 | e36 | e37 | e38 | e39
  all_goals subst_vars
  all_goals first | exact absurd rfl hne | rfl

theorem cfSet_soft_rate_limit_frame {v : String} {o o' : ColumnFamilyOptions}
    (h : cfSet_soft_rate_limit v o = .ok o') :
    ∀ p ∈ cfProjs, p.1 ≠ "soft_rate_limit" → p.2 o' = p.2 o := by
  obtain ⟨x, rfl⟩ := hlift_ok h
  intro p hp hne
  simp only [cfProjs, List.not_mem_nil, List.mem_cons, or_false] at hp
  rcases hp with e1 | e2 | e3 | e4 | e5 | e6 | e7 | e8 | e9 | e10 | e11 | e12 | e13 | e14 | e15 | e16 | e17 | e18 | e19 | e20 | e21 | e22 | e23 | e24 | e25 | e26 | e27 | e28 | e29 | e30 | e31 | e32 | e33 | e34 | e35 | e36 | e37 | e38 | e39
  all_goals subst_vars
  all_goals first | exact absurd rfl hne | rfl

theorem cfSet_hard_rate_limit_frame {v : String} {o o' : ColumnFamilyOptions}
    (h : cfSet_hard_rate_limit v o = .ok o') :
    ∀ p ∈ cfProjs, p.1 ≠ "hard_rate_limit" → p.2 o' = p.2 o := by
  obtain ⟨x, rfl⟩ := hlift_ok h
  intro p hp hne
  simp only [cfProjs, List.not_mem_nil, List.mem_cons, or_false] at hp
  rcases hp with e1 | e2 | e3 | e4 | e5 | e6 | e7 | e8 | e9 | e10 | e11 | e12 | e13 | e14 | e15 | e16 | e17 | e18 | e19 | e20 | e21 | e22 | e23 | e24 | e25 | e26 | e27 | e28 | e29 | e30 | e31 | e32 | e33 | e34 | e35 | e36 | e37 | e38 | e39
  all_goals subst_vars
  all_goals first | exact absurd rfl hne | rfl

theorem cfSet_level0_file_num_compaction_trigger_frame {v : String} {o o' : ColumnFamilyOptions}
    (h : cfSet_level0_file_num_compaction_trigger v o = .ok o') :
    ∀ p ∈ cfProjs, p.1 ≠ "level0_file_num_compaction_trigger" → p.2 o' = p.2 o := by
  obtain ⟨x, rfl⟩ := hlift_ok h
  intro p hp hne
  simp only [cfProjs, List.not_mem_nil, List.mem_cons, or_false] at hp
  rcases hp with e1 | e2 | e3 | e4 | e5 | e6 | e7 | e8 | e9 | e10 | e11 | e12 | e13 | e14 | e15 | e16 | e17 | e18 | e19 | e20 | e21 | e22 | e23 | e24 | e25 | e26 | e27 | e28 | e29 | e30 | e31 | e32 | e33 | e34 | e35 | e36 | e37 | e38 | e39
  all_goals subst_vars
  all_goals first | exact absurd rfl hne | rfl

theorem cfSet_level0_slowdown_writes_trigger_frame {v : String} {o o' : ColumnFamilyOptions}
    (h : cfSet_level0_slowdown_writes_trigger v o = .ok o') :
    ∀ p ∈ cfProjs, p.1 ≠ "level0_slowdown_writes_trigger" → p.2 o' = p.2 o := by
  obtain ⟨x, rfl⟩ := hlift_ok h
  intro p hp hne
  simp only [cfProjs, List.not_mem_nil, List.mem_cons, or_false] at hp
  rcases hp with e1 | e2 | e3 | e4 | e5 | e6 | e7 | e8 | e9 | e10 | e11 | e12 | e13 | e14 | e15 | e16 | e17 | e18 | e19 | e20 | e21 | e22 | e23 | e24 | e25 | e26 | e27 | e28 | e29 | e30 | e31 | e32 | e33 | e34 | e35 | e36 | e37 | e38 | e39
  all_goals subst_vars
  all_goals first | exact absurd rfl hne | rfl

theorem cfSet_level0_stop_writes_trigger_frame {v : String} {o o' : ColumnFamilyOptions}
    (h : cfSet_level0_stop_writes_trigger v o = .ok o') :
    ∀ p ∈ cfProjs, p.1 ≠ "level0_stop_writes_trigger" → p.2 o' = p.2 o := by
  obtain ⟨x, rfl⟩ := hlift_ok h
  intro p hp hne
  simp only [cfProjs, List.not_mem_nil, List.mem_cons, or_false] at hp
  rcases hp with e1 | e2 | e3 | e4 | e5 | e6 | e7 | e8 | e9 | e10 | e11 | e12 | e13 | e14 | e15 | e16 | e17 | e18 | e19 | e20 | e21 | e22 | e23 | e24 | e25 | e26 | e27 | e28 | e29 | e30 | e31 | e32 | e33 | e34 | e35 | e36 | e37 | e38 | e39
  all_goals subst_vars
  all_goals first | exact absurd rfl hne | rfl

theorem cfSet_max_grandparent_overlap_factor_frame {v : String} {o o' : ColumnFamilyOptions}
    (h : cfSet_max_grandparent_overlap_factor v o = .ok o') :
    ∀ p ∈ cfProjs, p.1 ≠ "max_grandparent_overlap_factor" → p.2 o' = p.2 o := by
  obtain ⟨x, rfl⟩ := hlift_ok h
  intro p hp hne
  simp only [cfProjs, List.not_mem_nil, List.mem_cons, or_false] at hp
  rcases hp with e1 | e2 | e3 | e4 | e5 | e6 | e7 | e8 | e9 | e10 | e11 | e12 | e13 | e14 | e15 | e16 | e17 | e18 | e19 | e20 | e21 | e22 | e23 | e24 | e25 | e26 | e27 | e28 | e29 | e30 | e31 | e32 | e33 | e34 | e35 | e36 | e37 | e38 | e39
  all_goals subst_vars
  all_goals first | exact absurd rfl hne | rfl

theorem cfSet_expanded_compaction_factor_frame {v : String} {o o' : ColumnFamilyOptions}
    (h : cfSet_expanded_compaction_factor v o = .ok o') :
    ∀ p ∈ cfProjs, p.1 ≠ "expanded_compaction_factor" → p.2 o' = p.2 o := by
  obtain ⟨x, rfl⟩ := hlift_ok h
  intro p hp hne
  simp only [cfProjs, List.not_mem_nil, List.mem_cons, or_false] at hp
  rcases hp with e1 | e2 | e3 | e4 | e5 | e6 | e7 | e8 | e9 | e10 | e11 | e12 | e13 | e14 | e15 | e16 | e17 | e18 | e19 | e20 | e21 | e22 | e23 | e24 | e25 | e26 | e27 | e28 | e29 | e30 | e31 | e32 | e33 | e34 | e35 | e36 | e37 | e38 | e39
  all_goals subst_vars
  all_goals first | exact absurd rfl hne | rfl

theorem cfSet_source_compaction_factor_frame {v : String} {o o' : ColumnFamilyOptions}
    (h : cfSet_source_compaction_factor v o = .ok o') :
    ∀ p ∈ cfProjs, p.1 ≠ "source_compaction_factor" → p.2 o' = p.2 o := by
  obtain ⟨x, rfl⟩ := hlift_ok h
  intro p hp hne
  simp only [cfProjs, List.not_mem_nil, List.mem_cons, or_false] at hp
  rcases hp with e1 | e2 | e3 | e4 | e5 | e6 | e7 | e8 | e9 | e10 | e11 | e12 | e13 | e14 | e15 | e16 | e17 | e18 | e19 | e20 | e21 | e22 | e23 | e24 | e25 | e26 | e27 | e28 | e29 | e30 | e31 | e32 | e33 | e34 | e35 | e36 | e37 | e38 | e39
  all_goals subst_vars
  all_goals first | exact absurd rfl hne | rfl

theorem cfSet_target_file_size_base_frame {v : String} {o o' : ColumnFamilyOptions}
    (h : cfSet_target_file_size_base v o = .ok o') :
    ∀ p ∈ cfProjs, p.1 ≠ "target_file_size_base" → p.2 o' = p.2 o := by
  obtain ⟨x, rfl⟩ := hlift_ok h
  intro p hp hne
  simp only [cfProjs, List.not_mem_nil, List.mem_cons, or_false] at hp
  rcases hp with e1 | e2 | e3 | e4 | e5 | e6 | e7 | e8 | e9 | e10 | e11 | e12 | e13 | e14 | e15 | e16 | e17 | e18 | e19 | e20 | e21 | e22 | e23 | e24 | e25 | e26 | e27 | e28 | e29 | e30 | e31 | e32 | e33 | e34 | e35 | e36 | e37 | e38 | e39
  all_goals subst_vars
  all_goals first | exact absurd rfl hne | rfl

theorem cfSet_target_file_size_multiplier_frame {v : String} {o o' : ColumnFamilyOptions}
    (h : cfSet_target_file_size_multiplier v o = .ok o') :
    ∀ p ∈ cfProjs, p.1 ≠ "target_file_size_multiplier" → p.2 o' = p.2 o := by
  obtain ⟨x, rfl⟩ := hlift_ok h
  intro p hp hne
  simp only [cfProjs, List.not_mem_nil, List.mem_cons, or_false] at hp
  rcases hp with e1 | e2 | e3 | e4 | e5 | e6 | e7 | e8 | e9 | e10 | e11 | e12 | e13 | e14 | e15 | e16 | e17 | e18 | e19 | e20 | e21 | e22 | e23 | e24 | e25 | e26 | e27 | e28 | e29 | e30 | e31 | e32 | e33 | e34 | e35 | e36 | e37 | e38 | e39
  all_goals subst_vars
  all_goals first | exact absurd rfl hne | rfl

theorem cfSet_max_bytes_for_level_base_frame {v : String} {o o' : ColumnFamilyOptions}
    (h : cfSet_max_bytes_for_level_base v o = .ok o') :
    ∀ p ∈ cfProjs, p.1 ≠ "max_bytes_for_level_base" → p.2 o' = p.2 o := by
  obtain ⟨x, rfl⟩ := hlift_ok h
  intro p hp hne
  simp only [cfProjs, List.not_mem_nil, List.mem_cons, or_false] at hp
  rcases hp with e1 | e2 | e3 | e4 | e5 | e6 | e7 | e8 | e9 | e10 | e11 | e12 | e13 | e14 | e15 | e16 | e17 | e18 | e19 | e20 | e21 | e22 | e23 | e24 | e25 | e26 | e27 | e28 | e29 | e30 | e31 | e32 | e33 | e34 | e35 | e36 | e37 | e38 | e39
  all_goals subst_vars
  all_goals first | exact absurd rfl hne | rfl

theorem cfSet_max_bytes_for_level_multiplier_frame {v : String} {o o' : ColumnFamilyOptions}
    (h : cfSet_max_bytes_for_level_multiplier v o = .ok o') :
    ∀ p ∈ cfProjs, p.1 ≠ "max_bytes_for_level_multiplier" → p.2 o' = p.2 o := by
  obtain ⟨x, rfl⟩ := hlift_ok h
  intro p hp hne
  simp only [cfProjs, List.not_mem_nil, List.mem_cons, or_false] at hp
  rcases hp with e1 | e2 | e3 | e4 | e5 | e6 | e7 | e8 | e9 | e10 | e11 | e12 | e13 | e14 | e15 | e16 | e17 | e18 | e19 | e20 | e21 | e22 | e23 | e24 | e25 | e26 | e27 | e28 | e29 | e30 | e31 | e32 | e33 | e34 | e35 | e36 | e37 | e38 | e39
  all_goals subst_vars
  all_goals first | exact absurd rfl hne | rfl

theorem cfSet_max_bytes_for_level_multiplier_additional_frame {v : String} {o o' : ColumnFamilyOptions}
    (h : cfSet_max_bytes_for_level_multiplier_additional v o = .ok o') :
    ∀ p ∈ cfProjs, p.1 ≠ "max_bytes_for_level_multiplier_additional" → p.2 o' = p.2 o := by
  obtain ⟨x, rfl⟩ := hlift_ok h
  intro p hp hne
  simp only [cfProjs, List.not_mem_nil, List.mem_cons, or_false] at hp
  rcases hp with e1 | e2 | e3 | e4 | e5 | e6 | e7 | e8 | e9 | e10 | e11 | e12 | e13 | e14 | e15 | e16 | e17 | e18 | e19 | e20 | e21 | e22 | e23 | e24 | e25 | e26 | e27 | e28 | e29 | e30 | e31 | e32 | e33 | e34 | e35 | e36 | e37 | e38 | e39
  all_goals subst_vars
  all_goals first | exact absurd rfl hne | rfl

theorem cfSet_max_mem_compaction_level_frame {v : String} {o o' : ColumnFamilyOptions}
    (h : cfSet_max_mem_compaction_level v o = .ok o') :
    ∀ p ∈ cfProjs, p.1 ≠ "max_mem_compaction_level" → p.2 o' = p.2 o := by
  obtain ⟨x, rfl⟩ := hlift_ok h
  intro p hp hne
  simp only [cfProjs, List.not_mem_nil, List.mem_cons, or_false] at hp
  rcases hp with e1 | e2 | e3 | e4 | e5 | e6 | e7 | e8 | e9 | e10 | e11 | e12 | e13 | e14 | e15 | e16 | e17 | e18 | e19 | e20 | e21 | e22 | e23 | e24 | e25 | e26 | e27 | e28 | e29 | e30 | e31 | e32 | e33 | e34 | e35 | e36 | e37 | e38 | e39
  all_goals subst_vars
  all_goals first | exact absurd rfl hne | rfl

theorem cfSet_verify_checksums_in_compaction_frame {v : String} {o o' : ColumnFamilyOptions}
    (h : cfSet_verify_checksums_in_compaction v o = .ok o') :
    ∀ p ∈ cfProjs, p.1 ≠ "verify_checksums_in_compaction" → p.2 o' = p.2 o := by
  obtain ⟨x, rfl⟩ := hlift_ok h
  intro p hp hne
  simp only [cfProjs, List.not_mem_nil, List.mem_cons, or_false] at hp
  rcases hp with e1 | e2 | e3 | e4 | e5 | e6 | e7 | e8 | e9 | e10 | e11 | e12 | e13 | e14 | e15 | e16 | e17 | e18 | e19 | e20 | e21 | e22 | e23 | e24 | e25 | e26 | e27 | e28 | e29 | e30 | e31 | e32 | e33 | e34 | e35 | e36 | e37 | e38 | e39
  all_goals subst_vars
  all_goals first | exact absurd rfl hne | rfl

theorem cfSet_max_sequential_skip_in_iterations_frame {v : String} {o o' : ColumnFamilyOptions}
    (h : cfSet_max_sequential_skip_in_iterations v o = .ok o') :
    ∀ p ∈ cfProjs, p.1 ≠ "max_sequential_skip_in_iterations" → p.2 o' = p.2 o := by
  obtain ⟨x, rfl⟩ := hlift_ok h
  intro p hp hne
  simp only [cfProjs, List.not_mem_nil, List.mem_cons, or_false] at hp
  rcases hp with e1 | e2 | e3 | e4 | e5 | e6 | e7 | e8 | e9 | e10 | e11 | e12 | e13 | e14 | e15 | e16 | e17 | e18 | e19 | e20 | e21 | e22 | e23 | e24 | e25 | e26 | e27 | e28 | e29 | e30 | e31 | e32 | e33 | e34 | e35 | e36 | e37 | e38 | e39
  all_goals subst_vars
  all_goals first | exact absurd rfl hne | rfl

theorem bbtFactoryBody_frame {v : String} {o o' : ColumnFamilyOptions}
    (h : bbtFactoryBody v o = .ok o') :
    ∀ p ∈ cfProjs, p.1 ≠ "block_based_table_factory" → p.2 o' = p.2 o := by
  obtain ⟨x, rfl⟩ := bbtFactoryBody_ok h
  intro p hp hne
  simp only [cfProjs, List.not_mem_nil, List.mem_cons, or_false] at hp
  rcases hp with e1 | e2 | e3 | e4 | e5 | e6 | e7 | e8 | e9 | e10 | e11 | e12 | e13 | e14 | e15 | e16 | e17 | e18 | e19 | e20 | e21 | e22 | e23 | e24 | e25 | e26 | e27 | e28 | e29 | e30 | e31 | e32 | e33 | e34 | e35 | e36 | e37 | e38 | e39
  all_goals subst_vars
  all_goals first | exact absurd rfl hne | rfl

theorem cfSet_min_write_buffer_number_to_merge_frame {v : String} {o o' : ColumnFamilyOptions}
    (h : cfSet_min_write_buffer_number_to_merge v o = .ok o') :
    ∀ p ∈ cfProjs, p.1 ≠ "min_write_buffer_number_to_merge" → p.2 o' = p.2 o := by
  obtain ⟨x, rfl⟩ := hlift_ok h
  intro p hp hne
  simp only [cfProjs, List.not_mem_nil, List.mem_cons, or_false] at hp
  rcases hp with e1 | e2 | e3 | e4 | e5 | e6 | e7 | e8 | e9 | e10 | e11 | e12 | e13 | e14 | e15 | e16 | e17 | e18 | e19 | e20 | e21 | e22 | e23 | e24 | e25 | e26 | e27 | e28 | e29 | e30 | e31 | e32 | e33 | e34 | e35 | e36 | e37 | e38 | e39
  all_goals subst_vars
  all_goals first | exact absurd rfl hne | rfl

theorem cfSet_compression_frame {v : String} {o o' : ColumnFamilyOptions}
    (h : cfSet_compression v o = .ok o') :
    ∀ p ∈ cfProjs, p.1 ≠ "compression" → p.2 o' = p.2 o := by
  obtain ⟨x, rfl⟩ := hlift_ok h
  intro p hp hne
  simp only [cfProjs, List.not_mem_nil, List.mem_cons, or_false] at hp
  rcases hp with e1 | e2 | e3 | e4 | e5 | e6 | e7 | e8 | e9 | e10 | e11 | e12 | e13 | e14 | e15 | e16 | e17 | e18 | e19 | e20 | e21 | e22 | e23 | e24 | e25 | e26 | e27 | e28 | e29 | e30 | e31 | e32 | e33 | e34 | e35 | e36 | e37 | e38 | e39
  all_goals subst_vars
  all_goals first | exact absurd rfl hne | rfl

theorem cfSet_compression_per_level_frame {v : String} {o o' : ColumnFamilyOptions}
    (h : cfSet_compression_per_level v o = .ok o') :
    ∀ p ∈ cfProjs, p.1 ≠ "compression_per_level" → p.2 o' = p.2 o := by
  obtain ⟨x, rfl⟩ := hlift_ok h
  intro p hp hne
  simp only [cfProjs, List.not_mem_nil, List.mem_cons, or_false] at hp
  rcases hp with e1 | e2 | e3 | e4 | e5 | e6 | e7 | e8 | e9 | e10 | e11 | e12 | e13 | e14 | e15 | e16 | e17 | e18 | e19 | e20 | e21 | e22 | e23 | e24 | e25 | e26 | e27 | e28 | e29 | e30 | e31 | e32 | e33 | e34 | e35 | e36 | e37 | e38 | e39
  all_goals subst_vars
  all_goals first | exact absurd rfl hne | rfl

theorem compressionOptsBody_frame {v : String} {o o' : ColumnFamilyOptions}
    (h : compressionOptsBody v o = .ok o') :
    ∀ p ∈ cfProjs, p.1 ≠ "compression_opts" → p.2 o' = p.2 o := by
  obtain ⟨x, rfl⟩ := compressionOptsBody_ok h
  intro p hp hne
  simp only [cfProjs, List.not_mem_nil, List.mem_cons, or_false] at hp
  rcases hp with e1 | e2 | e3 | e4 | e5 | e6 | e7 | e8 | e9 | e10 | e11 | e12 | e13 | e14 | e15 | e16 | e17 | e18 | e19 | e20 | e21 | e22 | e23 | e24 | e25 | e26 | e27 | e28 | e29 | e30 | e31 | e32 | e33 | e34 | e35 | e36 | e37 | e38 | e39
  all_goals subst_vars
  all_goals first | exact absurd rfl hne | rfl

theorem cfSet_num_levels_frame {v : String} {o o' : ColumnFamilyOptions}
    (h : cfSet_num_levels v o = .ok o') :
    ∀ p ∈ cfProjs, p.1 ≠ "num_levels" → p.2 o' = p.2 o := by
  obtain ⟨x, rfl⟩ := hlift_ok h
  intro p hp hne
  simp only [cfProjs, List.not_mem_nil, List.mem_cons, or_false] at hp
  rcases hp with e1 | e2 | e3 | e4 | e5 | e6 | e7 | e8 | e9 | e10 | e11 | e12 | e13 | e14 | e15 | e16 | e17 | e18 | e19 | e20 | e21 | e22 | e23 | e24 | e25 | e26 | e27 | e28 | e29 | e30 | e31 | e32 | e33 | e34 | e35 | e36 | e37 | e38 | e39
  all_goals subst_vars
  all_goals first | exact absurd rfl hne | rfl

theorem cfSet_purge_redundant_kvs_while_flush_frame {v : String} {o o' : ColumnFamilyOptions}
    (h : cfSet_purge_redundant_kvs_while_flush v o = .ok o') :
    ∀ p ∈ cfProjs, p.1 ≠ "purge_redundant_kvs_while_flush" → p.2 o' = p.2 o := by
  obtain ⟨x, rfl⟩ := hlift_ok h
  intro p hp hne
  simp only [cfProjs, List.not_mem_nil, List.mem_cons, or_false] at hp
  rcases hp with e1 | e2 | e3 | e4 | e5 | e6 | e7 | e8 | e9 | e10 | e11 | e12 | e13 | e14 | e15 | e16 | e17 | e18 | e19 | e20 | e21 | e22 | e23 | e24 | e25 | e26 | e27 | e28 | e29 | e30 | e31 | e32 | e33 | e34 | e35 | e36 | e37 | e38 | e39
  all_goals subst_vars
  all_goals first | exact absurd rfl hne | rfl

theorem cfSet_compaction_style_frame {v : String} {o o' : ColumnFamilyOptions}
    (h : cfSet_compaction_style v o = .ok o') :
    ∀ p ∈ cfProjs, p.1 ≠ "compaction_style" → p.2 o' = p.2 o := by
  obtain ⟨x, rfl⟩ := hlift_ok h
  intro p hp hne
  simp only [cfProjs, List.not_mem_nil, List.mem_cons, or_false] at hp
  rcases hp with e1 | e2 | e3 | e4 | e5 | e6 | e7 | e8 | e9 | e10 | e11 | e12 | e13 | e14 | e15 | e16 | e17 | e18 | e19 | e20 | e21 | e22 | e23 | e24 | e25 | e26 | e27 | e28 | e29 | e30 | e31 | e32 | e33 | e34 | e35 | e36 | e37 | e38 | e39
  all_goals subst_vars
  all_goals first | exact absurd rfl hne | rfl

theorem cfSet_compaction_options_fifo_frame {v : String} {o o' : ColumnFamilyOptions}
    (h : cfSet_compaction_options_fifo v o = .ok o') :
    ∀ p ∈ cfProjs, p.1 ≠ "compaction_options_fifo" → p.2 o' = p.2 o := by
  obtain ⟨x, rfl⟩ := hlift_ok h
  intro p hp hne
  simp only [cfProjs, List.not_mem_nil, List.mem_cons, or_false] at hp
  rcases hp with e1 | e2 | e3 | e4 | e5 | e6 | e7 | e8 | e9 | e10 | e11 | e12 | e13 | e14 | e15 | e16 | e17 | e18 | e19 | e20 | e21 | e22 | e23 | e24 | e25 | e26 | e27 | e28 | e29 | e30 | e31 | e32 | e33 | e34 | e35 | e36 | e37 | e38 | e39
  all_goals subst_vars
  all_goals first | exact absurd rfl hne | rfl

theorem cfSet_bloom_locality_frame {v : String} {o o' : ColumnFamilyOptions}
    (h : cfSet_bloom_locality v o = .ok o') :
    ∀ p ∈ cfProjs, p.1 ≠ "bloom_locality" → p.2 o' = p.2 o := by
  obtain ⟨x, rfl⟩ := hlift_ok h
  intro p hp hne
  simp only [cfProjs, List.not_mem_nil, List.mem_cons, or_false] at hp
  rcases hp with e1 | e2 | e3 | e4 | e5 | e6 | e7 | e8 | e9 | e10 | e11 | e12 | e13 | e14 | e15 | e16 | e17 | e18 | e19 | e20 | e21 | e22 | e23 | e24 | e25 | e26 | e27 | e28 | e29 | e30 | e31 | e32 | e33 | e34 | e35 | e36 | e37 | e38 | e39
  all_goals subst_vars
  all_goals first | exact absurd rfl hne | rfl

theorem cfSet_min_partial_merge_operands_frame {v : String} {o o' : ColumnFamilyOptions}
    (h : cfSet_min_partial_merge_operands v o = .ok o') :
    ∀ p ∈ cfProjs, p.1 ≠ "min_partial_merge_operands" → p.2 o' = p.2 o := by
  obtain ⟨x, rfl⟩ := hlift_ok h
  intro p hp hne
  simp only [cfProjs, List.not_mem_nil, List.mem_cons, or_false] at hp
  rcases hp with e1 | e2 | e3 | e4 | e5 | e6 | e7 | e8 | e9 | e10 | e11 | e12 | e13 | e14 | e15 | e16 | e17 | e18 | e19 | e20 | e21 | e22 | e23 | e24 | e25 | e26 | e27 | e28 | e29 | e30 | e31 | e32 | e33 | e34 | e35 | e36 | e37 | e38 | e39
  all_goals subst_vars
  all_goals first | exact absurd rfl hne | rfl

theorem cfSet_inplace_update_support_frame {v : String} {o o' : ColumnFamilyOptions}
    (h : cfSet_inplace_update_support v o = .ok o') :
    ∀ p ∈ cfProjs, p.1 ≠ "inplace_update_support" → p.2 o' = p.2 o := by
  obtain ⟨x, rfl⟩ := hlift_ok h
  intro p hp hne
  simp only [cfProjs, List.not_mem_nil, List.mem_cons, or_false] at hp
  rcases hp with e1 | e2 | e3 | e4 | e5 | e6 | e7 | e8 | e9 | e10 | e11 | e12 | e13 | e14 | e15 | e16 | e17 | e18 | e19 | e20 | e21 | e22 | e23 | e24 | e25 | e26 | e27 | e28 | e29 | e30 | e31 | e32 | e33 | e34 | e35 | e36 | e37 | e38 | e39
  all_goals subst_vars
  all_goals first | exact absurd rfl hne | rfl

theorem prefixExtractorBody_frame {v : String} {o o' : ColumnFamilyOptions}
    (h : prefixExtractorBody v o = .ok o') :
    ∀ p ∈ cfProjs, p.1 ≠ "prefix_extractor" → p.2 o' = p.2 o := by
  obtain ⟨x, rfl⟩ := prefixExtractorBody_ok h
  intro p hp hne
  simp only [cfProjs, List.not_mem_nil, List.mem_cons, or_false] at hp
  rcases hp with e1 | e2 | e3 | e4 | e5 | e6 | e7 | e8 | e9 | e10 | e11 | e12 | e13 | e14 | e15 | e16 | e17 | e18 | e19 | e20 | e21 | e22 | e23 | e24 | e25 | e26 | e27 | e28 | e29 | e30 | e31 | e32 | e33 | e34 | e35 | e36 | e37 | e38 | e39
  all_goals subst_vars
  all_goals first | exact absurd rfl hne | rfl

theorem dbSet_create_if_missing_frame {v : String} {o o' : DBOptions}
    (h : dbSet_create_if_missing v o = .ok o') :
    ∀ p ∈ dbProjs, p.1 ≠ "create_if_missing" → p.2 o' = p.2 o := by
  obtain ⟨x, rfl⟩ := hlift_ok h
  intro p hp hne
  simp only [dbProjs, List.not_mem_nil, List.mem_cons, or_false] at hp
  rcases hp with e1 | e2 | e3 | e4 | e5 | e6 | e7 | e8 | e9 | e10 | e11 | e12 | e13 | e14 | e15 | e16 | e17 | e18 | e19 | e20 | e21 | e22 | e23 | e24 | e25 | e26 | e27 | e28 | e29 | e30 | e31 | e32
  all_goals subst_vars
  all_goals first | exact absurd rfl hne | rfl

theorem dbSet_create_missing_column_families_frame {v : String} {o o' : DBOptions}
    (h : dbSet_create_missing_column_families v o = .ok o') :
    ∀ p ∈ dbProjs, p.1 ≠ "create_missing_column_families" → p.2 o' = p.2 o := by
  obtain ⟨x, rfl⟩ := hlift_ok h
  intro p hp hne
  simp only [dbProjs, List.not_mem_nil, List.mem_cons, or_false] at hp
  rcases hp with e1 | e2 | e3 | e4 | e5 | e6 | e7 | e8 | e9 | e10 | e11 | e12 | e13 | e14 | e15 | e16 | e17 | e18 | e19 | e20 | e21 | e22 | e23 | e24 | e25 | e26 | e27 | e28 | e29 | e30 | e31 | e32
  all_goals subst_vars
  all_goals first | exact absurd rfl hne | rfl

theorem dbSet_error_if_exists_frame {v : String} {o o' : DBOptions}
    (h : dbSet_error_if_exists v o = .ok o') :
    ∀ p ∈ dbProjs, p.1 ≠ "error_if_exists" → p.2 o' = p.2 o := by
  obtain ⟨x, rfl⟩ := hlift_ok h
  intro p hp hne
  simp only [dbProjs, List.not_mem_nil, List.mem_cons, or_false] at hp
  rcases hp with e1 | e2 | e3 | e4 | e5 | e6 | e7 | e8 | e9 | e10 | e11 | e12 | e13 | e14 | e15 | e16 | e17 | e18 | e19 | e20 | e21 | e22 | e23 | e24 | e25 | e26 | e27 | e28 | e29 | e30 | e31 | e32
  all_goals subst_vars
  all_goals first | exact absurd rfl hne | rfl

theorem dbSet_paranoid_checks_frame {v : String} {o o' : DBOptions}
    (h : dbSet_paranoid_checks v o = .ok o') :
    ∀ p ∈ dbProjs, p.1 ≠ "paranoid_checks" → p.2 o' = p.2 o := by
  obtain ⟨x, rfl⟩ := hlift_ok h
  intro p hp hne
  simp only [dbProjs, List.not_mem_nil, List.mem_cons, or_false] at hp
  rcases hp with e1 | e2 | e3 | e4 | e5 | e6 | e7 | e8 | e9 | e10 | e11 | e12 | e13 | e14 | e15 | e16 | e17 | e18 | e19 | e20 | e21 | e22 | e23 | e24 | e25 | e26 | e27 | e28 | e29 | e30 | e31 | e32
  all_goals subst_vars
  all_goals first | exact absurd rfl hne | rfl

theorem dbSet_max_open_files_frame {v : String} {o o' : DBOptions}
    (h : dbSet_max_open_files v o = .ok o') :
    ∀ p ∈ dbProjs, p.1 ≠ "max_open_files" → p.2 o' = p.2 o := by
  obtain ⟨x, rfl⟩ := hlift_ok h
  intro p hp hne
  simp only [dbProjs, List.not_mem_nil, List.mem_cons, or_false] at hp
  rcases hp with e1 | e2 | e3 | e4 | e5 | e6 | e7 | e8 | e9 | e10 | e11 | e12 | e13 | e14 | e15 | e16 | e17 | e18 | e19 | e20 | e21 | e22 | e23 | e24 | e25 | e26 | e27 | e28 | e29 | e30 | e31 | e32
  all_goals subst_vars
  all_goals first | exact absurd rfl hne | rfl

theorem dbSet_max_total_wal_size_frame {v : String} {o o' : DBOptions}
    (h : dbSet_max_total_wal_size v o = .ok o') :
    ∀ p ∈ dbProjs, p.1 ≠ "max_total_wal_size" → p.2 o' = p.2 o := by
  obtain ⟨x, rfl⟩ := hlift_ok h
  intro p hp hne
  simp only [dbProjs, List.not_mem_nil, List.mem_cons, or_false] at hp
  rcases hp with e1 | e2 | e3 | e4 | e5 | e6 | e7 | e8 | e9 | e10 | e11 | e12 | e13 | e14 | e15 | e16 | e17 | e18 | e19 | e20 | e21 | e22 | e23 | e24 | e25 | e26 | e27 | e28 | e29 | e30 | e31 | e32
  all_goals subst_vars
  all_goals first | exact absurd rfl hne | rfl

theorem dbSet_disable_data_sync_frame {v : String} {o o' : DBOptions}
    (h : dbSet_disable_data_sync v o = .ok o') :
    ∀ p ∈ dbProjs, p.1 ≠ "disable_data_sync" → p.2 o' = p.2 o := by
  obtain ⟨x, rfl⟩ := hlift_ok h
  intro p hp hne
  simp only [dbProjs, List.not_mem_nil, List.mem_cons, or_false] at hp
  rcases hp with e1 | e2 | e3 | e4 | e5 | e6 | e7 | e8 | e9 | e10 | e11 | e12 | e13 | e14 | e15 | e16 | e17 | e18 | e19 | e20 | e21 | e22 | e23 | e24 | e25 | e26 | e27 | e28 | e29 | e30 | e31 | e32
  all_goals subst_vars
  all_goals first | exact absurd rfl hne | rfl

theorem dbSet_use_fsync_frame {v : String} {o o' : DBOptions}
    (h : dbSet_use_fsync v o = .ok o') :
    ∀ p ∈ dbProjs, p.1 ≠ "use_fsync" → p.2 o' = p.2 o := by
  obtain ⟨x, rfl⟩ := hlift_ok h
  intro p hp hne
  simp only [dbProjs, List.not_mem_nil, List.mem_cons, or_false] at hp
  rcases hp with e1 | e2 | e3 | e4 | e5 | e6 | e7 | e8 | e9 | e10 | e11 | e12 | e13 | e14 | e15 | e16 | e17 | e18 | e19 | e20 | e21 | e22 | e23 | e24 | e25 | e26 | e27 | e28 | e29 | e30 | e31 | e32
  all_goals subst_vars
  all_goals first | exact absurd rfl hne | rfl

theorem dbSet_db_log_dir_frame {v : String} {o o' : DBOptions}
    (h : dbSet_db_log_dir v o = .ok o') :
    ∀ p ∈ dbProjs, p.1 ≠ "db_log_dir" → p.2 o' = p.2 o := by
  cases h
  intro p hp hne
  simp only [dbProjs, List.not_mem_nil, List.mem_cons, or_false] at hp
  rcases hp with e1 | e2 | e3 | e4 | e5 | e6 | e7 | e8 | e9 | e10 | e11 | e12 | e13 | e14 | e15 | e16 | e17 | e18 | e19 | e20 | e21 | e22 | e23 | e24 | e25 | e26 | e27 | e28 | e29 | e30 | e31 | e32
  all_goals subst_vars
  all_goals first | exact absurd rfl hne | rfl

theorem dbSet_wal_dir_frame {v : String} {o o' : DBOptions}
    (h : dbSet_wal_dir v o = .ok o') :
    ∀ p ∈ dbProjs, p.1 ≠ "wal_dir" → p.2 o' = p.2 o := by
  cases h
  intro p hp hne
  simp only [dbProjs, List.not_mem_nil, List.mem_cons, or_false] at hp
  rcases hp with e1 | e2 | e3 | e4 | e5 | e6 | e7 | e8 | e9 | e10 | e11 | e12 | e13 | e14 | e15 | e16 | e17 | e18 | e19 | e20 | e21 | e22 | e23 | e24 | e25 | e26 | e27 | e28 | e29 | e30 | e31 | e32
  all_goals subst_vars
  all_goals first | exact absurd rfl hne | rfl

theorem dbSet_delete_obsolete_files_period_micros_frame {v : String} {o o' : DBOptions}
    (h : dbSet_delete_obsolete_files_period_micros v o = .ok o') :
    ∀ p ∈ dbProjs, p.1 ≠ "delete_obsolete_files_period_micros" → p.2 o' = p.2 o := by
  obtain ⟨x, rfl⟩ := hlift_ok h
  intro p hp hne
  simp only [dbProjs, List.not_mem_nil, List.mem_cons, or_false] at hp
  rcases hp with e1 | e2 | e3 | e4 | e5 | e6 | e7 | e8 | e9 | e10 | e11 | e12 | e13 | e14 | e15 | e16 | e17 | e18 | e19 | e20 | e21 | e22 | e23 | e24 | e25 | e26 | e27 | e28 | e29 | e30 | e31 | e32
  all_goals subst_vars
  all_goals first | exact absurd rfl hne | rfl

theorem dbSet_max_background_compactions_frame {v : String} {o o' : DBOptions}
    (h : dbSet_max_background_compactions v o = .ok o') :
    ∀ p ∈ dbProjs, p.1 ≠ "max_background_compactions" → p.2 o' = p.2 o := by
  obtain ⟨x, rfl⟩ := hlift_ok h
  intro p hp hne
  simp only [dbProjs, List.not_mem_nil, List.mem_cons, or_false] at hp
  rcases hp with e1 | e2 | e3 | e4 | e5 | e6 | e7 | e8 | e9 | e10 | e11 | e12 | e13 | e14 | e15 | e16 | e17 | e18 | e19 | e20 | e21 | e22 | e23 | e24 | e25 | e26 | e27 | e28 | e29 | e30 | e31 | e32
  all_goals subst_vars
  all_goals first | exact absurd rfl hne | rfl

theorem dbSet_max_background_flushes_frame {v : String} {o o' : DBOptions}
    (h : dbSet_max_background_flushes v o = .ok o') :
    ∀ p ∈ dbProjs, p.1 ≠ "max_background_flushes" → p.2 o' = p.2 o := by
  obtain ⟨x, rfl⟩ := hlift_ok h
  intro p hp hne
  simp only [dbProjs, List.not_mem_nil, List.mem_cons, or_false] at hp
  rcases hp with e1 | e2 | e3 | e4 | e5 | e6 | e7 | e8 | e9 | e10 | e11 | e12 | e13 | e14 | e15 | e16 | e17 | e18 | e19 | e20 | e21 | e22 | e23 | e24 | e25 | e26 | e27 | e28 | e29 | e30 | e31 | e32
  all_goals subst_vars
  all_goals first | exact absurd rfl hne | rfl

theorem dbSet_max_log_file_size_frame {v : String} {o o' : DBOptions}
    (h : dbSet_max_log_file_size v o = .ok o') :
    ∀ p ∈ dbProjs, p.1 ≠ "max_log_file_size" → p.2 o' = p.2 o := by
  obtain ⟨x, rfl⟩ := hlift_ok h
  intro p hp hne
  simp only [dbProjs, List.not_mem_nil, List.mem_cons, or_false] at hp
  rcases hp with e1 | e2 | e3 | e4 | e5 | e6 | e7 | e8 | e9 | e10 | e11 | e12 | e13 | e14 | e15 | e16 | e17 | e18 | e19 | e20 | e21 | e22 | e23 | e24 | e25 | e26 | e27 | e28 | e29 | e30 | e31 | e32
  all_goals subst_vars
  all_goals first | exact absurd rfl hne | rfl

theorem dbSet_log_file_time_to_roll_frame {v : String} {o o' : DBOptions}
    (h : dbSet_log_file_time_to_roll v o = .ok o') :
    ∀ p ∈ dbProjs, p.1 ≠ "log_file_time_to_roll" → p.2 o' = p.2 o := by
  obtain ⟨x, rfl⟩ := hlift_ok h
  intro p hp hne
  simp only [dbProjs, List.not_mem_nil, List.mem_cons, or_false] at hp
  rcases hp with e1 | e2 | e3 | e4 | e5 | e6 | e7 | e8 | e9 | e10 | e11 | e12 | e13 | e14 | e15 | e16 | e17 | e18 | e19 | e20 | e21 | e22 | e23 | e24 | e25 | e26 | e27 | e28 | e29 | e30 | e31 | e32
  all_goals subst_vars
  all_goals first | exact absurd rfl hne | rfl

theorem dbSet_keep_log_file_num_frame {v : String} {o o' : DBOptions}
    (h : dbSet_keep_log_file_num v o = .ok o') :
    ∀ p ∈ dbProjs, p.1 ≠ "keep_log_file_num" → p.2 o' = p.2 o := by
  obtain ⟨x, rfl⟩ := hlift_ok h
  intro p hp hne
  simp only [dbProjs, List.not_mem_nil, List.mem_cons, or_false] at hp
  rcases hp with e1 | e2 | e3 | e4 | e5 | e6 | e7 | e8 | e9 | e10 | e11 | e12 | e13 | e14 | e15 | e16 | e17 | e18 | e19 | e20 | e21 | e22 | e23 | e24 | e25 | e26 | e27 | e28 | e29 | e30 | e31 | e32
  all_goals subst_vars
  all_goals first | exact absurd rfl hne | rfl

theorem dbSet_max_manifest_file_size_frame {v : String} {o o' : DBOptions}
    (h : dbSet_max_manifest_file_size v o = .ok o') :
    ∀ p ∈ dbProjs, p.1 ≠ "max_manifest_file_size" → p.2 o' = p.2 o := by
  obtain ⟨x, rfl⟩ := hlift_ok h
  intro p hp hne
  simp only [dbProjs, List.not_mem_nil, List.mem_cons, or_false] at hp
  rcases hp with e1 | e2 | e3 | e4 | e5 | e6 | e7 | e8 | e9 | e10 | e11 | e12 | e13 | e14 | e15 | e16 | e17 | e18 | e19 | e20 | e21 | e22 | e23 | e24 | e25 | e26 | e27 | e28 | e29 | e30 | e31 | e32
  all_goals subst_vars
  all_goals first | exact absurd rfl hne | rfl

theorem dbSet_table_cache_numshardbits_frame {v : String} {o o' : DBOptions}
    (h : dbSet_table_cache_numshardbits v o = .ok o') :
    ∀ p ∈ dbProjs, p.1 ≠ "table_cache_numshardbits" → p.2 o' = p.2 o := by
  obtain ⟨x, rfl⟩ := hlift_ok h
  intro p hp hne
  simp only [dbProjs, List.not_mem_nil, List.mem_cons, or_false] at hp
  rcases hp with e1 | e2 | e3 | e4 | e5 | e6 | e7 | e8 | e9 | e10 | e11 | e12 | e13 | e14 | e15 | e16 | e17 | e18 | e19 | e20 | e21 | e22 | e23 | e24 | e25 | e26 | e27 | e28 | e29 | e30 | e31 | e32
  all_goals subst_vars
  all_goals first | exact absurd rfl hne | rfl

theorem dbSet_table_cache_remove_scan_count_limit_frame {v : String} {o o' : DBOptions}
    (h : dbSet_table_cache_remove_scan_count_limit v o = .ok o') :
    ∀ p ∈ dbProjs, p.1 ≠ "table_cache_remove_scan_count_limit" → p.2 o' = p.2 o := by
  obtain ⟨x, rfl⟩ := hlift_ok h
  intro p hp hne
  simp only [dbProjs, List.not_mem_nil, List.mem_cons, or_false] at hp
  rcases hp with e1 | e2 | e3 | e4 | e5 | e6 | e7 | e8 | e9 | e10 | e11 | e12 | e13 | e14 | e15 | e16 | e17 | e18 | e19 | e20 | e21 | e22 | e23 | e24 | e25 | e26 | e27 | e28 | e29 | e30 | e31 | e32
  all_goals subst_vars
  all_goals first | exact absurd rfl hne | rfl

theorem dbSet_WAL_ttl_seconds_frame {v : String} {o o' : DBOptions}
    (h : dbSet_WAL_ttl_seconds v o = .ok o') :
    ∀ p ∈ dbProjs, p.1 ≠ "WAL_ttl_seconds" → p.2 o' = p.2 o := by
  obtain ⟨x, rfl⟩ := hlift_ok h
  intro p hp hne
  simp only [dbProjs, List.not_mem_nil, List.mem_cons, or_false] at hp
  rcases hp with e1 | e2 | e3 | e4 | e5 | e6 | e7 | e8 | e9 | e10 | e11 | e12 | e13 | e14 | e15 | e16 | e17 | e18 | e19 | e20 | e21 | e22 | e23 | e24 | e25 | e26 | e27 | e28 | e29 | e30 | e31 | e32
  all_goals subst_vars
  all_goals first | exact absurd rfl hne | rfl

theorem dbSet_WAL_size_limit_MB_frame {v : String} {o o' : DBOptions}
    (h : dbSet_WAL_size_limit_MB v o = .ok o') :
    ∀ p ∈ dbProjs, p.1 ≠ "WAL_size_limit_MB" → p.2 o' = p.2 o := by
  obtain ⟨x, rfl⟩ := hlift_ok h
  intro p hp hne
  simp only [dbProjs, List.not_mem_nil, List.mem_cons, or_false] at hp
  rcases hp with e1 | e2 | e3 | e4 | e5 | e6 | e7 | e8 | e9 | e10 | e11 | e12 | e13 | e14 | e15 | e16 | e17 | e18 | e19 | e20 | e21 | e22 | e23 | e24 | e25 | e26 | e27 | e28 | e29 | e30 | e31 | e32
  all_goals subst_vars
  all_goals first | exact absurd rfl hne | rfl

theorem dbSet_manifest_preallocation_size_frame {v : String} {o o' : DBOptions}
    (h : dbSet_manifest_preallocation_size v o = .ok o') :
    ∀ p ∈ dbProjs, p.1 ≠ "manifest_preallocation_size" → p.2 o' = p.2 o := by
  obtain ⟨x, rfl⟩ := hlift_ok h
  intro p hp hne
  simp only [dbProjs, List.not_mem_nil, List.mem_cons, or_false] at hp
  rcases hp with e1 | e2 | e3 | e4 | e5 | e6 | e7 | e8 | e9 | e10 | e11 | e12 | e13 | e14 | e15 | e16 | e17 | e18 | e19 | e20 | e21 | e22 | e23 | e24 | e25 | e26 | e27 | e28 | e29 | e30 | e31 | e32
  all_goals subst_vars
  all_goals first | exact absurd rfl hne | rfl

theorem dbSet_allow_os_buffer_frame {v : String} {o o' : DBOptions}
    (h : dbSet_allow_os_buffer v o = .ok o') :
    ∀ p ∈ dbProjs, p.1 ≠ "allow_os_buffer" → p.2 o' = p.2 o := by
  obtain ⟨x, rfl⟩ := hlift_ok h
  intro p hp hne
  simp only [dbProjs, List.not_mem_nil, List.mem_cons, or_false] at hp
  rcases hp with e1 | e2 | e3 | e4 | e5 | e6 | e7 | e8 | e9 | e10 | e11 | e12 | e13 | e14 | e15 | e16 | e17 | e18 | e19 | e20 | e21 | e22 | e23 | e24 | e25 | e26 | e27 | e28 | e29 | e30 | e31 | e32
  all_goals subst_vars
  all_goals first | exact absurd rfl hne | rfl

theorem dbSet_allow_mmap_reads_frame {v : String} {o o' : DBOptions}
    (h : dbSet_allow_mmap_reads v o = .ok o') :
    ∀ p ∈ dbProjs, p.1 ≠ "allow_mmap_reads" → p.2 o' = p.2 o := by
  obtain ⟨x, rfl⟩ := hlift_ok h
  intro p hp hne
  simp only [dbProjs, List.not_mem_nil, List.mem_cons, or_false] at hp
  rcases hp with e1 | e2 | e3 | e4 | e5 | e6 | e7 | e8 | e9 | e10 | e11 | e12 | e13 | e14 | e15 | e16 | e17 | e18 | e19 | e20 | e21 | e22 | e23 | e24 | e25 | e26 | e27 | e28 | e29 | e30 | e31 | e32
  all_goals subst_vars
  all_goals first | exact absurd rfl hne | rfl

theorem dbSet_allow_mmap_writes_frame {v : String} {o o' : DBOptions}
    (h : dbSet_allow_mmap_writes v o = .ok o') :
    ∀ p ∈ dbProjs, p.1 ≠ "allow_mmap_writes" → p.2 o' = p.2 o := by
  obtain ⟨x, rfl⟩ := hlift_ok h
  intro p hp hne
  simp only [dbProjs, List.not_mem_nil, List.mem_cons, or_false] at hp
  rcases hp with e1 | e2 | e3 | e4 | e5 | e6 | e7 | e8 | e9 | e10 | e11 | e12 | e13 | e14 | e15 | e16 | e17 | e18 | e19 | e20 | e21 | e22 | e23 | e24 | e25 | e26 | e27 | e28 | e29 | e30 | e31 | e32
  all_goals subst_vars
  all_goals first | exact absurd rfl hne | rfl

theorem dbSet_is_fd_close_on_exec_frame {v : String} {o o' : DBOptions}
    (h : dbSet_is_fd_close_on_exec v o = .ok o') :
    ∀ p ∈ dbProjs, p.1 ≠ "is_fd_close_on_exec" → p.2 o' = p.2 o := by
  obtain ⟨x, rfl⟩ := hlift_ok h
  intro p hp hne
  simp only [dbProjs, List.not_mem_nil, List.mem_cons, or_false] at hp
  rcases hp with e1 | e2 | e3 | e4 | e5 | e6 | e7 | e8 | e9 | e10 | e11 | e12 | e13 | e14 | e15 | e16 | e17 | e18 | e19 | e20 | e21 | e22 | e23 | e24 | e25 | e26 | e27 | e28 | e29 | e30 | e31 | e32
  all_goals subst_vars
  all_goals first | exact absurd rfl hne | rfl

theorem dbSet_skip_log_error_on_recovery_frame {v : String} {o o' : DBOptions}
    (h : dbSet_skip_log_error_on_recovery v o = .ok o') :
    ∀ p ∈ dbProjs, p.1 ≠ "skip_log_error_on_recovery" → p.2 o' = p.2 o := by
  obtain ⟨x, rfl⟩ := hlift_ok h
  intro p hp hne
  simp only [dbProjs, List.not_mem_nil, List.mem_cons, or_false] at hp
  rcases hp with e1 | e2 | e3 | e4 | e5 | e6 | e7 | e8 | e9 | e10 | e11 | e12 | e13 | e14 | e15 | e16 | e17 | e18 | e19 | e20 | e21 | e22 | e23 | e24 | e25 | e26 | e27 | e28 | e29 | e30 | e31 | e32
  all_goals subst_vars
  all_goals first | exact absurd rfl hne | rfl

theorem dbSet_stats_dump_period_sec_frame {v : String} {o o' : DBOptions}
    (h : dbSet_stats_dump_period_sec v o = .ok o') :
    ∀ p ∈ dbProjs, p.1 ≠ "stats_dump_period_sec" → p.2 o' = p.2 o := by
  obtain ⟨x, rfl⟩ := hlift_ok h
  intro p hp hne
  simp only [dbProjs, List.not_mem_nil, List.mem_cons, or_false] at hp
  rcases hp with e1 | e2 | e3 | e4 | e5 | e6 | e7 | e8 | e9 | e10 | e11 | e12 | e13 | e14 | e15 | e16 | e17 | e18 | e19 | e20 | e21 | e22 | e23 | e24 | e25 | e26 | e27 | e28 | e29 | e30 | e31 | e32
  all_goals subst_vars
  all_goals first | exact absurd rfl hne | rfl

theorem dbSet_advise_random_on_open_frame {v : String} {o o' : DBOptions}
    (h : dbSet_advise_random_on_open v o = .ok o') :
    ∀ p ∈ dbProjs, p.1 ≠ "advise_random_on_open" → p.2 o' = p.2 o := by
  obtain ⟨x, rfl⟩ := hlift_ok h
  intro p hp hne
  simp only [dbProjs, List.not_mem_nil, List.mem_cons, or_false] at hp
  rcases hp with e1 | e2 | e3 | e4 | e5 | e6 | e7 | e8 | e9 | e10 | e11 | e12 | e13 | e14 | e15 | e16 | e17 | e18 | e19 | e20 | e21 | e22 | e23 | e24 | e25 | e26 | e27 | e28 | e29 | e30 | e31 | e32
  all_goals subst_vars
  all_goals first | exact absurd rfl hne | rfl

theorem dbSet_db_write_buffer_size_frame {v : String} {o o' : DBOptions}
    (h : dbSet_db_write_buffer_size v o = .ok o') :
    ∀ p ∈ dbProjs, p.1 ≠ "db_write_buffer_size" → p.2 o' = p.2 o := by
  obtain ⟨x, rfl⟩ := hlift_ok h
  intro p hp hne
  simp only [dbProjs, List.not_mem_nil, List.mem_cons, or_false] at hp
  rcases hp with e1 | e2 | e3 | e4 | e5 | e6 | e7 | e8 | e9 | e10 | e11 | e12 | e13 | e14 | e15 | e16 | e17 | e18 | e19 | e20 | e21 | e22 | e23 | e24 | e25 | e26 | e27 | e28 | e29 | e30 | e31 | e32
  all_goals subst_vars
  all_goals first | exact absurd rfl hne | rfl

theorem dbSet_use_adaptive_mutex_frame {v : String} {o o' : DBOptions}
    (h : dbSet_use_adaptive_mutex v o = .ok o') :
    ∀ p ∈ dbProjs, p.1 ≠ "use_adaptive_mutex" → p.2 o' = p.2 o := by
  obtain ⟨x, rfl⟩ := hlift_ok h
  intro p hp hne
  simp only [dbProjs, List.not_mem_nil, List.mem_cons, or_false] at hp
  rcases hp with e1 | e2 | e3 | e4 | e5 | e6 | e7 | e8 | e9 | e10 | e11 | e12 | e13 | e14 | e15 | e16 | e17 | e18 | e19 | e20 | e21 | e22 | e23 | e24 | e25 | e26 | e27 | e28 | e29 | e30 | e31 | e32
  all_goals subst_vars
  all_goals first | exact absurd rfl hne | rfl

theorem dbSet_bytes_per_sync_frame {v : String} {o o' : DBOptions}
    (h : dbSet_bytes_per_sync v o = .ok o') :
    ∀ p ∈ dbProjs, p.1 ≠ "bytes_per_sync" → p.2 o' = p.2 o := by
  obtain ⟨x, rfl⟩ := hlift_ok h
  intro p hp hne
  simp only [dbProjs, List.not_mem_nil, List.mem_cons, or_false] at hp
  rcases hp with e1 | e2 | e3 | e4 | e5 | e6 | e7 | e8 | e9 | e10 | e11 | e12 | e13 | e14 | e15 | e16 | e17 | e18 | e19 | e20 | e21 | e22 | e23 | e24 | e25 | e26 | e27 | e28 | e29 | e30 | e31 | e32
  all_goals subst_vars
  all_goals first | exact absurd rfl hne | rfl

/-- A successful `List.lookup` finds a pair of the list. -/
theorem lookup_mem {κ ω : Type} [BEq κ] [LawfulBEq κ] {ps : List (κ × ω)} {a : κ} {w : ω}
    (h : List.lookup a ps = some w) : (a, w) ∈ ps := by
  induction ps with
  | nil => cases h
  | cons hd rest ih =>
    obtain ⟨a0, w0⟩ := hd
    rw [List.lookup] at h
    by_cases he : a == a0
    · simp only [he] at h
      cases h
      have : a = a0 := by simpa using he
      subst this
      exact List.mem_cons_self _ _
    · simp only [Bool.not_eq_true] at he
      simp only [he] at h
      exact List.mem_cons_of_mem _ (ih h)

/-- `List.lookup` misses exactly when the key is none of the list's keys. -/
theorem lookup_none {κ ω : Type} [BEq κ] [LawfulBEq κ] {ps : List (κ × ω)} {a : κ}
    (h : a ∉ ps.map Prod.fst) : List.lookup a ps = none := by
  induction ps with
  | nil => rfl
  | cons hd rest ih =>
    obtain ⟨a0, w0⟩ := hd
    rw [List.lookup]
    have hne : (a == a0) = false := by
      simp only [List.map_cons, List.mem_cons] at h
      simp only [beq_eq_false_iff_ne, ne_eq]
      exact fun he => h (Or.inl (by simp [he]))
    simp only [hne]
    exact ih (fun hm => h (by simp only [List.map_cons, List.mem_cons]; exact Or.inr hm))
/-- Every registered action of this domain writes only the field of its
own key. -/
theorem cfHandlers_frame :
    ∀ pr ∈ cfHandlers, ∀ (v : String) (o o' : ColumnFamilyOptions), pr.2 v o = .ok o' →
      ∀ p ∈ cfProjs, p.1 ≠ pr.1 → p.2 o' = p.2 o := by
  intro pr hpr
  simp only [cfHandlers, List.not_mem_nil, List.mem_cons, or_false] at hpr
  rcases hpr with e1 | e2 | e3 | e4 | e5 | e6 | e7 | e8 | e9 | e10 | e11 | e12 | e13 | e14 | e15 | e16 | e17 | e18 | e19 | e20 | e21 | e22 | e23 | e24 | e25 | e26 | e27 | e28 | e29 | e30 | e31 | e32 | e33 | e34 | e35 | e36 | e37 | e38 | e39 | e40
  all_goals subst_vars
  · exact fun v o o' h p hp hne => cfSet_write_buffer_size_frame h p hp hne
  · exact fun v o o' h p hp hne => cfSet_arena_block_size_frame h p hp hne
  · exact fun v o o' h p hp hne => cfSet_memtable_prefix_bloom_bits_frame h p hp hne
  · exact fun v o o' h p hp hne => cfSet_memtable_prefix_bloom_probes_frame h p hp hne
  · exact fun v o o' h p hp hne => cfSet_memtable_prefix_bloom_huge_page_tlb_size_frame h p hp hne
  · exact fun v o o' h p hp hne => cfSet_max_successive_merges_frame h p hp hne
  · exact fun v o o' h p hp hne => cfSet_filter_deletes_frame h p hp hne
  · exact fun v o o' h p hp hne => cfSet_max_write_buffer_number_frame h p hp hne
  · exact fun v o o' h p hp hne => cfSet_inplace_update_num_locks_frame h p hp hne
  · exact fun v o o' h p hp hne => cfSet_disable_auto_compactions_frame h p hp hne
  · exact fun v o o' h p hp hne => cfSet_soft_rate_limit_frame h p hp hne
  · exact fun v o o' h p hp hne => cfSet_hard_rate_limit_frame h p hp hne
  · exact fun v o o' h p hp hne => cfSet_level0_file_num_compaction_trigger_frame h p hp hne
  · exact fun v o o' h p hp hne => cfSet_level0_slowdown_writes_trigger_frame h p hp hne
  · exact fun v o o' h p hp hne => cfSet_level0_stop_writes_trigger_frame h p hp hne
  · exact fun v o o' h p hp hne => cfSet_max_grandparent_overlap_factor_frame h p hp hne
  · exact fun v o o' h p hp hne => cfSet_expanded_compaction_factor_frame h p hp hne
  · exact fun v o o' h p hp hne => cfSet_source_compaction_factor_frame h p hp hne
  · exact fun v o o' h p hp hne => cfSet_target_file_size_base_frame h p hp hne
  · exact fun v o o' h p hp hne => cfSet_target_file_size_multiplier_frame h p hp hne
  · exact fun v o o' h p hp hne => cfSet_max_bytes_for_level_base_frame h p hp hne
  · exact fun v o o' h p hp hne => cfSet_max_bytes_for_level_multiplier_frame h p hp hne
  · exact fun v o o' h p hp hne => cfSet_max_bytes_for_level_multiplier_additional_frame h p hp hne
  · exact fun v o o' h p hp hne => cfSet_max_mem_compaction_level_frame h p hp hne
  · exact fun v o o' h p hp hne => cfSet_verify_checksums_in_compaction_frame h p hp hne
  · exact fun v o o' h p hp hne => cfSet_max_sequential_skip_in_iterations_frame h p hp hne
  · exact fun v o o' h p hp hne => bbtFactoryBody_frame h p hp hne
  · exact fun v o o' h p hp hne => cfSet_min_write_buffer_number_to_merge_frame h p hp hne
  · exact fun v o o' h p hp hne => cfSet_compression_frame h p hp hne
  · exact fun v o o' h p hp hne => cfSet_compression_per_level_frame h p hp hne
  · exact fun v o o' h p hp hne => compressionOptsBody_frame h p hp hne
  · exact fun v o o' h p hp hne => cfSet_num_levels_frame h p hp hne
  · exact fun v o o' h p hp hne => cfSet_purge_redundant_kvs_while_flush_frame h p hp hne
  · exact fun v o o' h p hp hne => cfSet_compaction_style_frame h p hp hne
  · exact fun v o o' h => Except.noConfusion h
  · exact fun v o o' h p hp hne => cfSet_compaction_options_fifo_frame h p hp hne
  · exact fun v o o' h p hp hne => cfSet_bloom_locality_frame h p hp hne
  · exact fun v o o' h p hp hne => cfSet_min_partial_merge_operands_frame h p hp hne
  · exact fun v o o' h p hp hne => cfSet_inplace_update_support_frame h p hp hne
  · exact fun v o o' h p hp hne => prefixExtractorBody_frame h p hp hne

/-- Every registered action of this domain writes only the field of its
own key. -/
theorem dbHandlers_frame :
    ∀ pr ∈ dbHandlers, ∀ (v : String) (o o' : DBOptions), pr.2 v o = .ok o' →
      ∀ p ∈ dbProjs, p.1 ≠ pr.1 → p.2 o' = p.2 o := by
  intro pr hpr
  simp only [dbHandlers, List.not_mem_nil, List.mem_cons, or_false] at hpr
  rcases hpr with e1 | e2 | e3 | e4 | e5 | e6 | e7 | e8 | e9 | e10 | e11 | e12 | e13 | e14 | e15 | e16 | e17 | e18 | e19 | e20 | e21 | e22 | e23 | e24 | e25 | e26 | e27 | e28 | e29 | e30 | e31 | e32 | e33
  all_goals subst_vars
  · exact fun v o o' h p hp hne => dbSet_create_if_missing_frame h p hp hne
  · exact fun v o o' h p hp hne => dbSet_create_missing_column_families_frame h p hp hne
  · exact fun v o o' h p hp hne => dbSet_error_if_exists_frame h p hp hne
  · exact fun v o o' h p hp hne => dbSet_paranoid_checks_frame h p hp hne
  · exact fun v o o' h p hp hne => dbSet_max_open_files_frame h p hp hne
  · exact fun v o o' h p hp hne => dbSet_max_total_wal_size_frame h p hp hne
  · exact fun v o o' h p hp hne => dbSet_disable_data_sync_frame h p hp hne
  · exact fun v o o' h p hp hne => dbSet_use_fsync_frame h p hp hne
  · exact fun v o o' h => Except.noConfusion h
  · exact fun v o o' h p hp hne => dbSet_db_log_dir_frame h p hp hne
  · exact fun v o o' h p hp hne => dbSet_wal_dir_frame h p hp hne
  · exact fun v o o' h p hp hne => dbSet_delete_obsolete_files_period_micros_frame h p hp hne
  · exact fun v o o' h p hp hne => dbSet_max_background_compactions_frame h p hp hne
  · exact fun v o o' h p hp hne => dbSet_max_background_flushes_frame h p hp hne
  · exact fun v o o' h p hp hne => dbSet_max_log_file_size_frame h p hp hne
  · exact fun v o o' h p hp hne => dbSet_log_file_time_to_roll_frame h p hp hne
  · exact fun v o o' h p hp hne => dbSet_keep_log_file_num_frame h p hp hne
  · exact fun v o o' h p hp hne => dbSet_max_manifest_file_size_frame h p hp hne
  · exact fun v o o' h p hp hne => dbSet_table_cache_numshardbits_frame h p hp hne
  · exact fun v o o' h p hp hne => dbSet_table_cache_remove_scan_count_limit_frame h p hp hne
  · exact fun v o o' h p hp hne => dbSet_WAL_ttl_seconds_frame h p hp hne
  · exact fun v o o' h p hp hne => dbSet_WAL_size_limit_MB_frame h p hp hne
  · exact fun v o o' h p hp hne => dbSet_manifest_preallocation_size_frame h p hp hne
  · exact fun v o o' h p hp hne => dbSet_allow_os_buffer_frame h p hp hne
  · exact fun v o o' h p hp hne => dbSet_allow_mmap_reads_frame h p hp hne
  · exact fun v o o' h p hp hne => dbSet_allow_mmap_writes_frame h p hp hne
  · exact fun v o o' h p hp hne => dbSet_is_fd_close_on_exec_frame h p hp hne
  · exact fun v o o' h p hp hne => dbSet_skip_log_error_on_recovery_frame h p hp hne
  · exact fun v o o' h p hp hne => dbSet_stats_dump_period_sec_frame h p hp hne
  · exact fun v o o' h p hp hne => dbSet_advise_random_on_open_frame h p hp hne
  · exact fun v o o' h p hp hne => dbSet_db_write_buffer_size_frame h p hp hne
  · exact fun v o o' h p hp hne => dbSet_use_adaptive_mutex_frame h p hp hne
  · exact fun v o o' h p hp hne => dbSet_bytes_per_sync_frame h p hp hne

/-- A successful namespace per-key body writes only the key's own field. -/
theorem cfBody_frame {k v : String} {o o' : ColumnFamilyOptions}
    (h : cfBody k v o = .ok o') :
    ∀ p ∈ cfProjs, p.1 ≠ k → p.2 o' = p.2 o := by
  unfold cfBody at h
  cases hfind : List.lookup k cfHandlers with
  | none => rw [hfind] at h; cases h
  | some hdl =>
    rw [hfind] at h
    exact fun p hp hne => cfHandlers_frame (k, hdl) (lookup_mem hfind) v o o' h p hp hne

/-- A successful engine per-key body writes only the key's own field. -/
theorem dbBody_frame {k v : String} {o o' : DBOptions}
    (h : dbBody k v o = .ok o') :
    ∀ p ∈ dbProjs, p.1 ≠ k → p.2 o' = p.2 o := by
  unfold dbBody at h
  cases hfind : List.lookup k dbHandlers with
  | none => rw [hfind] at h; cases h
  | some hdl =>
    rw [hfind] at h
    exact fun p hp hne => dbHandlers_frame (k, hdl) (lookup_mem hfind) v o o' h p hp hne

/-- A successful dispatcher fold only writes fields whose keys occur in the
map: generic over the domain. -/
theorem applyMap_frame {σ : Type} (d : String → String → σ → Except PErr σ)
    (projs : List (String × (σ → FieldVal)))
    (hd : ∀ k v o o', d k v o = .ok o' → ∀ p ∈ projs, p.1 ≠ k → p.2 o' = p.2 o) :
    ∀ (m : List (String × String)) (o res : σ), applyMap d m o = .ok res →
      ∀ p ∈ projs, (∀ q ∈ m, q.1 ≠ p.1) → p.2 res = p.2 o := by
  intro m
  induction m with
  | nil =>
    intro o res h p hp hq
    cases h
    rfl
  | cons kv rest ih =>
    intro o res h p hp hq
    obtain ⟨k, v⟩ := kv
    unfold applyMap at h
    cases hd1 : d k v o with
    | error e => rw [hd1] at h; cases h
    | ok o1 =>
      rw [hd1] at h
      have h2 := ih o1 res h p hp (fun q hq2 => hq q (List.mem_cons_of_mem _ hq2))
      have h3 := hd k v o o1 hd1 p hp (Ne.symm (hq (k, v) (List.mem_cons_self _ _)))
      rw [h2, h3]

/-- The registries' key columns are exactly the recognized-key lists. -/
theorem cfHandlers_keys : cfHandlers.map Prod.fst = cfOptionKeys := rfl

theorem dbHandlers_keys : dbHandlers.map Prod.fst = dbOptionKeys := rfl

theorem bbtHandlers_keys : bbtHandlers.map Prod.fst = bbtOptionKeys := rfl

/-- A key outside the namespace registry reaches the unrecognized-key error. -/
theorem cfBody_unrec {k : String} (v : String) (o : ColumnFamilyOptions)
    (hk : k ∉ cfOptionKeys) :
    cfBody k v o = .error (.st (.invalidArgument ("Unrecognized option: " ++ k))) := by
  unfold cfBody
  rw [lookup_none (by rw [cfHandlers_keys]; exact hk)]

/-- A key outside the engine registry reaches the unrecognized-key error. -/
theorem dbBody_unrec {k : String} (v : String) (o : DBOptions)
    (hk : k ∉ dbOptionKeys) :
    dbBody k v o = .error (.st (.invalidArgument ("Unrecognized option: " ++ k))) := by
  unfold dbBody
  rw [lookup_none (by rw [dbHandlers_keys]; exact hk)]

/-- A key outside the table registry reaches the unrecognized-key error. -/
theorem bbtBody_unrec {k : String} (v : String) (o : BlockBasedTableOptions)
    (hk : k ∉ bbtOptionKeys) :
    bbtBody k v o = .error (.st (.invalidArgument ("Unrecognized option: " ++ k))) := by
  unfold bbtBody
  rw [lookup_none (by rw [bbtHandlers_keys]; exact hk)]

/-- C2: for every base configuration, raw option map and recognized key
absent from the map, the corresponding field of the returned configuration
equals the base's value for that field, in the engine domain and in the
namespace domain.  (The caller's base object itself is never written: the
embedded operations are pure functions of the base, mirroring the source's
work on `*new_options` seeded by copy-assignment from `base_options`.) -/
theorem options_from_map_partial_update :
    (∀ (base : DBOptions) (m : List (String × String)) (res : DBOptions),
        GetDBOptionsFromMap base m = .ok res →
        ∀ p ∈ dbProjs, (∀ q ∈ m, q.1 ≠ p.1) → p.2 res = p.2 base) ∧
    (∀ (base : ColumnFamilyOptions) (m : List (String × String)) (res : ColumnFamilyOptions),
        GetColumnFamilyOptionsFromMap base m = .ok res →
        ∀ p ∈ cfProjs, (∀ q ∈ m, q.1 ≠ p.1) → p.2 res = p.2 base) := by
  constructor
  · intro base m res h
    exact applyMap_frame dbDispatch dbProjs
      (fun k v o o' hd => dbBody_frame (wrapCatch_ok hd)) m base res h
  · intro base m res h
    exact applyMap_frame cfDispatch cfProjs
      (fun k v o o' hd => cfBody_frame (wrapCatch_ok hd)) m base res h

/-- Witness for C2: a concrete engine parse of `wal_dir=xyz` leaves
`create_if_missing` at the base's value. -/
theorem options_from_map_partial_update_witness :
    FieldVal.vB ({sampleDBOptions with wal_dir := "xyz"} : DBOptions).create_if_missing
      = FieldVal.vB sampleDBOptions.create_if_missing :=
  options_from_map_partial_update.1 sampleDBOptions [("wal_dir", "xyz")]
    {sampleDBOptions with wal_dir := "xyz"} rfl
    ("create_if_missing", fun o => FieldVal.vB o.create_if_missing)
    (by simp only [dbProjs]; exact List.mem_cons_self _ _)
    (by intro q hq; rw [List.mem_singleton] at hq; subst hq; decide)

/-- C7: in every domain, a key no applicable registry recognizes aborts
the operation with an unrecognized-key error naming the key, while the
reserved keys `compaction_options_universal` (namespace domain) and
`db_paths` (engine domain) abort with a distinct NotSupported error
naming the key. -/
theorem unrecognized_and_unsupported_keys :
    (∀ (base : DBOptions) (k v : String), k ∉ dbOptionKeys →
        GetDBOptionsFromMap base [(k, v)] =
          .error (.invalidArgument ("Unrecognized option: " ++ k))) ∧
    (∀ (base : ColumnFamilyOptions) (k v : String), k ∉ cfOptionKeys →
        GetColumnFamilyOptionsFromMap base [(k, v)] =
          .error (.invalidArgument ("Unrecognized option: " ++ k))) ∧
    (∀ (base : BlockBasedTableOptions) (k v : String), k ∉ bbtOptionKeys →
        GetBlockBasedTableOptionsFromMap base [(k, v)] =
          .error (.invalidArgument ("Unrecognized option: " ++ k))) ∧
    (∀ (base : ColumnFamilyOptions) (v : String),
        GetColumnFamilyOptionsFromMap base [("compaction_options_universal", v)] =
          .error (.notSupported ("Not supported: " ++ "compaction_options_universal"))) ∧
    (∀ (base : DBOptions) (v : String),
        GetDBOptionsFromMap base [("db_paths", v)] =
          .error (.notSupported ("Not supported: " ++ "db_paths"))) := by
  refine ⟨?pdb, ?pcf, ?pbbt, ?puni, ?ppaths⟩
  · intro base k v hk
    have hd : dbDispatch k v base = .error (.invalidArgument ("Unrecognized option: " ++ k)) := by
      unfold dbDispatch
      rw [dbBody_unrec v base hk]
      rfl
    unfold GetDBOptionsFromMap applyMap
    rw [hd]
  · intro base k v hk
    have hd : cfDispatch k v base = .error (.invalidArgument ("Unrecognized option: " ++ k)) := by
      unfold cfDispatch
      rw [cfBody_unrec v base hk]
      rfl
    unfold GetColumnFamilyOptionsFromMap applyMap
    rw [hd]
  · intro base k v hk
    have hd : bbtDispatch k v base = .error (.invalidArgument ("Unrecognized option: " ++ k)) := by
      unfold bbtDispatch
      rw [bbtBody_unrec v base hk]
      rfl
    unfold GetBlockBasedTableOptionsFromMap applyMap
    rw [hd]
  · intro base v
    rfl
  · intro base v
    rfl

/-- Witness for C7: the unknown key `not_a_real_option` is rejected by the
engine dispatcher with the error naming it. -/
theorem unrecognized_and_unsupported_keys_witness :
    GetDBOptionsFromMap sampleDBOptions [("not_a_real_option", "1")] =
      .error (.invalidArgument ("Unrecognized option: " ++ "not_a_real_option")) :=
  unrecognized_and_unsupported_keys.1 sampleDBOptions "not_a_real_option" "1" (by decide)

/-- C1 (code bug): on the empty input, `trim` reads index `2 ^ 64 - 1`
(an out-of-range access, undefined behaviour in the source), so tokenizing
the empty string hits that access instead of returning an empty map; an
all-whitespace input does trim to the empty string and tokenize to the
empty map. -/
theorem trim_empty_input_out_of_range :
    trim "".toList = none ∧
    StringToMap "" = .error .oob ∧
    StringToMap "   " = .ok [] :=
  ⟨rfl, rfl, rfl⟩

/-- C3: applying namespace options with the nested input installs a table
factory whose table configuration, built from a fresh default, has
block_size = 8192 and block_restart_interval = 4; all other fields of the
namespace configuration keep the base's values. -/
theorem cf_nested_block_round_trip :
    ∀ base : ColumnFamilyOptions,
      ∃ t : BlockBasedTableOptions,
        GetColumnFamilyOptionsFromString base
            "block_based_table_factory={block_size=8192;block_restart_interval=4}" =
          .ok {base with table_factory := some t} ∧
        t.block_size = 8192 ∧ t.block_restart_interval = 4 := by
  intro base
  exact ⟨{defaultBlockBasedTableOptions with block_size := 8192, block_restart_interval := 4},
    rfl, rfl, rfl⟩

/-- C5 (counterexample): `prefix_extractor` accepts `fixed:5:6` — the
extra positional field is silently ignored rather than rejected, because
the numeral coercion stops at the colon. -/
theorem prefix_extractor_extra_fields_cex :
    GetColumnFamilyOptionsFromMap sampleCFOptions [("prefix_extractor", "fixed:5:6")] =
      .ok {sampleCFOptions with prefix_extractor := some 5} :=
  rfl

/-- C5 (amended): a tag-prefix mismatch fails with the invalid-format
error for both tagged keys; for `filter_policy` a missing second field
fails with the format error, `bloomfilter:10:true` yields 10 bits per key
with block-based building, and extra fields fail (the boolean coercion of
the third field rejects them); for `prefix_extractor` extra
colon-separated fields after the numeral are silently ignored. -/
theorem tagged_payload_parsing :
    (∀ (v : String) (o : BlockBasedTableOptions),
        substr v.toList 0 ("bloomfilter:".toList.length) ≠ "bloomfilter:".toList →
        bbtDispatch "filter_policy" v o =
          .error (.invalidArgument "Invalid filter policy name")) ∧
    (∀ (v : String) (o : ColumnFamilyOptions),
        substr v.toList 0 ("fixed:".toList.length) ≠ "fixed:".toList →
        cfDispatch "prefix_extractor" v o =
          .error (.invalidArgument ("Invalid Prefix Extractor type: " ++ v))) ∧
    (∀ o : BlockBasedTableOptions,
        bbtDispatch "filter_policy" "bloomfilter:10:true" o =
          .ok {o with filter_policy := some (10, true)}) ∧
    (∀ o : BlockBasedTableOptions,
        bbtDispatch "filter_policy" "bloomfilter:10" o =
          .error (.invalidArgument "Invalid filter policy config, missing bits_per_key")) ∧
    (∀ o : BlockBasedTableOptions,
        bbtDispatch "filter_policy" "bloomfilter:10:true:false" o =
          .error (.invalidArgument
            ("error parsing " ++ "filter_policy" ++ ":" ++ "use_block_based_builder"))) ∧
    (∀ o : ColumnFamilyOptions,
        cfDispatch "prefix_extractor" "fixed:5:6" o =
          .ok {o with prefix_extractor := some 5}) := by
  refine ⟨?pmis, ?qmis, ?pok, ?pmiss, ?pextra, ?qextra⟩
  · intro v o h
    have hb : bbtDispatch "filter_policy" v o =
        wrapCatch "filter_policy" (filterPolicyBody v o) := rfl
    rw [hb]
    unfold filterPolicyBody
    rw [if_neg h]
    rfl
  · intro v o h
    have hb : cfDispatch "prefix_extractor" v o =
        wrapCatch "prefix_extractor" (prefixExtractorBody v o) := rfl
    rw [hb]
    unfold prefixExtractorBody
    rw [if_neg h]
    rfl
  · intro o
    rfl
  · intro o
    rfl
  · intro o
    rfl
  · intro o
    rfl

/-- Witness for the amended C5: the mismatch branches at concrete inputs. -/
theorem tagged_payload_parsing_witness :
    bbtDispatch "filter_policy" "foo" defaultBlockBasedTableOptions =
      .error (.invalidArgument "Invalid filter policy name") ∧
    cfDispatch "prefix_extractor" "nope" sampleCFOptions =
      .error (.invalidArgument ("Invalid Prefix Extractor type: " ++ "nope")) :=
  ⟨tagged_payload_parsing.1 "foo" defaultBlockBasedTableOptions (by decide),
   tagged_payload_parsing.2.1 "nope" sampleCFOptions (by decide)⟩

/-- Value of a base-10 digit string, as accumulated by the digit scan. -/
def digitsToNat (ds : List Char) : Nat :=
  ds.foldl (fun a c => 10 * a + (c.toNat - 48)) 0

/-- The unit-suffix table of the unsigned coercer: suffix character and
left-shift amount. -/
def suffixShifts : List (Char × Nat) :=
  [('k', 10), ('K', 10), ('m', 20), ('M', 20), ('g', 30), ('G', 30), ('t', 40), ('T', 40)]

theorem isspace_not_digit {c : Char} (h : isspace c = true) : c.isDigit = false := by
  simp only [isspace, Bool.or_eq_true, decide_eq_true_eq] at h
  rcases h with ((((hsp | hta) | hnl) | hvt) | hff) | hcr
  all_goals subst_vars
  all_goals decide

theorem digit_not_space {c : Char} (h : c.isDigit = true) : isspace c = false := by
  cases hs : isspace c
  · rfl
  · rw [isspace_not_digit hs] at h
    cases h

theorem digit_ne {c d : Char} (h : c.isDigit = true) (hd : d.isDigit = false) : c ≠ d := by
  intro he
  subst he
  rw [h] at hd
  cases hd

theorem digitRunAux_split (ds rest : List Char) (i acc : Nat)
    (hds : ∀ c ∈ ds, c.isDigit = true)
    (hrest : ∀ c, rest.head? = some c → c.isDigit = false) :
    digitRunAux (ds ++ rest) i acc =
      (ds.foldl (fun a c => 10 * a + (c.toNat - 48)) acc, i + ds.length) := by
  induction ds generalizing i acc with
  | nil =>
    cases rest with
    | nil => simp [digitRunAux]
    | cons r rs =>
      have hr := hrest r rfl
      simp [digitRunAux, hr]
  | cons d ds ih =>
    have hd := hds d (List.mem_cons_self _ _)
    have hstep : digitRunAux ((d :: ds) ++ rest) i acc =
        digitRunAux (ds ++ rest) (i + 1) (10 * acc + (d.toNat - 48)) := by
      rw [List.cons_append, digitRunAux, if_pos hd]
    rw [hstep, ih _ _ (fun c hc => hds c (List.mem_cons_of_mem _ hc))]
    simp only [List.foldl_cons, List.length_cons, Prod.mk.injEq]
    exact ⟨trivial, by omega⟩

theorem skipSpace_head_digit {d : Char} {l : List Char} (hd : d.isDigit = true) :
    skipSpace (d :: l) 0 = 0 := by
  unfold skipSpace
  rw [List.drop_zero, skipSpaceAux, digit_not_space hd]
  simp

theorem signParse_head_digit {d : Char} {l : List Char} (hd : d.isDigit = true) :
    signParse (d :: l) 0 = (false, 0) := by
  unfold signParse
  rw [dif_pos (by simp)]
  simp only [List.getElem_cons_zero]
  rw [if_neg (digit_ne hd (by decide)), if_neg (digit_ne hd (by decide))]

theorem digitRunAcc_head_digits {d : Char} {ds' rest : List Char}
    (hds : ∀ c ∈ d :: ds', c.isDigit = true)
    (hrest : ∀ c, rest.head? = some c → c.isDigit = false) :
    digitRunAcc ((d :: ds') ++ rest) 0 0 =
      (digitsToNat (d :: ds'), (d :: ds').length) := by
  unfold digitRunAcc
  rw [List.drop_zero, digitRunAux_split _ _ _ _ hds hrest]
  simp [digitsToNat]

theorem stoull_digits (ds rest : List Char) (hne : ds ≠ [])
    (hds : ∀ c ∈ ds, c.isDigit = true)
    (hrest : ∀ c, rest.head? = some c → c.isDigit = false)
    (hlt : digitsToNat ds < W64) :
    stoull (ds ++ rest) = .ok (digitsToNat ds, ds.length) := by
  obtain ⟨d, ds', rfl⟩ : ∃ d ds', ds = d :: ds' := by
    cases ds with
    | nil => exact absurd rfl hne
    | cons d ds' => exact ⟨d, ds', rfl⟩
  have hd := hds d (List.mem_cons_self _ _)
  unfold stoull
  rw [List.cons_append, skipSpace_head_digit hd, signParse_head_digit hd]
  unfold stoullAfterSign
  rw [← List.cons_append, digitRunAcc_head_digits hds hrest]
  rw [if_neg (by simp), if_neg (by unfold W64 at hlt ⊢; omega)]
  rfl

theorem stoi_digits (ds rest : List Char) (hne : ds ≠ [])
    (hds : ∀ c ∈ ds, c.isDigit = true)
    (hrest : ∀ c, rest.head? = some c → c.isDigit = false)
    (hle : digitsToNat ds ≤ 2 ^ 31 - 1) :
    stoi (ds ++ rest) = .ok ((digitsToNat ds : Int), ds.length) := by
  obtain ⟨d, ds', rfl⟩ : ∃ d ds', ds = d :: ds' := by
    cases ds with
    | nil => exact absurd rfl hne
    | cons d ds' => exact ⟨d, ds', rfl⟩
  have hd := hds d (List.mem_cons_self _ _)
  unfold stoi
  rw [List.cons_append, skipSpace_head_digit hd, signParse_head_digit hd]
  unfold stoiAfterSign
  rw [← List.cons_append, digitRunAcc_head_digits hds hrest]
  rw [if_neg (by simp)]
  rw [if_neg (by
    show ¬((digitsToNat (d :: ds') : Int) < -(2 ^ 31) ∨
           (digitsToNat (d :: ds') : Int) > 2 ^ 31 - 1)
    push_cast
    omega)]
  rfl

/-- Reading just past a prefix of known length lands on the next
character. -/
theorem getD_append_cons (ds rest : List Char) (c x : Char) :
    (ds ++ c :: rest).getD ds.length x = c := by
  induction ds with
  | nil => rfl
  | cons d ds ih => simpa using ih

theorem parseUint64Suffix_at (ds : List Char) (c : Char) (rest : List Char) (num : Nat) :
    parseUint64Suffix (ds ++ c :: rest) num ds.length =
      (if c = 'k' ∨ c = 'K' then num * 2 ^ 10 % W64
      else if c = 'm' ∨ c = 'M' then num * 2 ^ 20 % W64
      else if c = 'g' ∨ c = 'G' then num * 2 ^ 30 % W64
      else if c = 't' ∨ c = 'T' then num * 2 ^ 40 % W64
      else num) := by
  unfold parseUint64Suffix
  rw [if_pos (by simp), getD_append_cons]

theorem parseIntSuffix_at (ds : List Char) (c : Char) (rest : List Char) (num : Int) :
    parseIntSuffix (ds ++ c :: rest) num ds.length =
      (if c = 'k' ∨ c = 'K' then wrap32 (num * 2 ^ 10)
      else if c = 'm' ∨ c = 'M' then wrap32 (num * 2 ^ 20)
      else if c = 'g' ∨ c = 'G' then wrap32 (num * 2 ^ 30)
      else num) := by
  unfold parseIntSuffix
  rw [if_pos (by simp), getD_append_cons]

theorem ParseUint64_after_digits (ds : List Char) (c : Char) (rest : List Char)
    (hne : ds ≠ []) (hds : ∀ x ∈ ds, x.isDigit = true) (hcd : c.isDigit = false)
    (hlt : digitsToNat ds < W64) :
    ParseUint64 (String.mk (ds ++ c :: rest)) = .ok (
      if c = 'k' ∨ c = 'K' then digitsToNat ds * 2 ^ 10 % W64
      else if c = 'm' ∨ c = 'M' then digitsToNat ds * 2 ^ 20 % W64
      else if c = 'g' ∨ c = 'G' then digitsToNat ds * 2 ^ 30 % W64
      else if c = 't' ∨ c = 'T' then digitsToNat ds * 2 ^ 40 % W64
      else digitsToNat ds) := by
  unfold ParseUint64
  rw [show (String.mk (ds ++ c :: rest)).toList = ds ++ c :: rest from rfl]
  rw [stoull_digits ds (c :: rest) hne hds (fun x hx => by cases hx; exact hcd) hlt]
  rw [show (match (Except.ok (digitsToNat ds, ds.length) : Except CErr (Nat × Nat)) with
      | .error e => .error e
      | .ok (num, endchar) => .ok (parseUint64Suffix (ds ++ c :: rest) num endchar)) =
      Except.ok (parseUint64Suffix (ds ++ c :: rest) (digitsToNat ds) ds.length) from rfl]
  rw [parseUint64Suffix_at]

theorem ParseUint64_digits_only (ds : List Char)
    (hne : ds ≠ []) (hds : ∀ x ∈ ds, x.isDigit = true)
    (hlt : digitsToNat ds < W64) :
    ParseUint64 (String.mk ds) = .ok (digitsToNat ds) := by
  have hst : stoull ds = .ok (digitsToNat ds, ds.length) := by
    have := stoull_digits ds [] hne hds (fun x hx => by cases hx) hlt
    rwa [List.append_nil] at this
  unfold ParseUint64
  rw [show (String.mk ds).toList = ds from rfl, hst]
  rw [show (match (Except.ok (digitsToNat ds, ds.length) : Except CErr (Nat × Nat)) with
      | .error e => .error e
      | .ok (num, endchar) => .ok (parseUint64Suffix ds num endchar)) =
      Except.ok (parseUint64Suffix ds (digitsToNat ds) ds.length) from rfl]
  unfold parseUint64Suffix
  rw [if_neg (by simp)]

theorem ParseInt_after_digits (ds : List Char) (c : Char) (rest : List Char)
    (hne : ds ≠ []) (hds : ∀ x ∈ ds, x.isDigit = true) (hcd : c.isDigit = false)
    (hle : digitsToNat ds ≤ 2 ^ 31 - 1) :
    ParseInt (String.mk (ds ++ c :: rest)) = .ok (
      if c = 'k' ∨ c = 'K' then wrap32 ((digitsToNat ds : Int) * 2 ^ 10)
      else if c = 'm' ∨ c = 'M' then wrap32 ((digitsToNat ds : Int) * 2 ^ 20)
      else if c = 'g' ∨ c = 'G' then wrap32 ((digitsToNat ds : Int) * 2 ^ 30)
      else (digitsToNat ds : Int)) := by
  unfold ParseInt
  rw [show (String.mk (ds ++ c :: rest)).toList = ds ++ c :: rest from rfl]
  rw [stoi_digits ds (c :: rest) hne hds (fun x hx => by cases hx; exact hcd) hle]
  rw [show (match (Except.ok ((digitsToNat ds : Int), ds.length) : Except CErr (Int × Nat)) with
      | .error e => .error e
      | .ok (num, endchar) => .ok (parseIntSuffix (ds ++ c :: rest) num endchar)) =
      Except.ok (parseIntSuffix (ds ++ c :: rest) (digitsToNat ds) ds.length) from rfl]
  rw [parseIntSuffix_at]

/-- C4 (counterexample): the numeral `2 ^ 64` has no trailing character but
the coercer does not return its value — the magnitude overflows `uint64_t`
and `stoull` throws `out_of_range`. -/
theorem parse_uint64_overflow_cex :
    ParseUint64 "18446744073709551616" = .error (.outOfRange "stoull") :=
  rfl

/-- C4 (amended): `4k`, `2m`, `1g` parse to 4096, 2097152 and 1073741824;
every decimal numeral whose value fits in 64 bits parses to its value when
no character follows, and a single trailing suffix from the `k/K`, `m/M`,
`g/G`, `t/T` table shifts the value left by 10, 20, 30, 40 bits in
`uint64_t` (modulo `2 ^ 64`) arithmetic; numerals of 64-bit-overflowing
magnitude fail with `out_of_range` instead. -/
theorem parse_uint64_unit_suffixes :
    ParseUint64 "4k" = .ok 4096 ∧
    ParseUint64 "2m" = .ok 2097152 ∧
    ParseUint64 "1g" = .ok 1073741824 ∧
    (∀ ds : List Char, ds ≠ [] → (∀ x ∈ ds, x.isDigit = true) →
        digitsToNat ds < W64 →
        ParseUint64 (String.mk ds) = .ok (digitsToNat ds)) ∧
    (∀ (ds : List Char) (c : Char) (n : Nat), ds ≠ [] →
        (∀ x ∈ ds, x.isDigit = true) → digitsToNat ds < W64 →
        (c, n) ∈ suffixShifts →
        ParseUint64 (String.mk (ds ++ [c])) = .ok (digitsToNat ds * 2 ^ n % W64)) := by
  refine ⟨rfl, rfl, rfl, ?pbare, ?psuf⟩
  case pbare =>
    intro ds hne hds hlt
    exact ParseUint64_digits_only ds hne hds hlt
  case psuf =>
    intro ds c n hne hds hlt hmem
    simp only [suffixShifts, List.not_mem_nil, List.mem_cons, or_false,
      Prod.mk.injEq] at hmem
    rcases hmem with ⟨ek1, ek2⟩ | ⟨eK1, eK2⟩ | ⟨em1, em2⟩ | ⟨eM1, eM2⟩ |
      ⟨eg1, eg2⟩ | ⟨eG1, eG2⟩ | ⟨et1, et2⟩ | ⟨eT1, eT2⟩
    all_goals subst_vars
    · rw [ParseUint64_after_digits ds _ [] hne hds (by decide) hlt,
        if_pos (Or.inl rfl)]
    · rw [ParseUint64_after_digits ds _ [] hne hds (by decide) hlt,
        if_pos (Or.inr rfl)]
    · rw [ParseUint64_after_digits ds _ [] hne hds (by decide) hlt,
        if_neg (by decide), if_pos (Or.inl rfl)]
    · rw [ParseUint64_after_digits ds _ [] hne hds (by decide) hlt,
        if_neg (by decide), if_pos (Or.inr rfl)]
    · rw [ParseUint64_after_digits ds _ [] hne hds (by decide) hlt,
        if_neg (by decide), if_neg (by decide), if_pos (Or.inl rfl)]
    · rw [ParseUint64_after_digits ds _ [] hne hds (by decide) hlt,
        if_neg (by decide), if_neg (by decide), if_pos (Or.inr rfl)]
    · rw [ParseUint64_after_digits ds _ [] hne hds (by decide) hlt,
        if_neg (by decide), if_neg (by decide), if_neg (by decide),
        if_pos (Or.inl rfl)]
    · rw [ParseUint64_after_digits ds _ [] hne hds (by decide) hlt,
        if_neg (by decide), if_neg (by decide), if_neg (by decide),
        if_pos (Or.inr rfl)]

/-- Witness for the amended C4: the general clauses at the numeral `7`. -/
theorem parse_uint64_unit_suffixes_witness :
    ParseUint64 (String.mk ['7']) = .ok (digitsToNat ['7']) ∧
    ParseUint64 (String.mk (['7'] ++ ['k'])) = .ok (digitsToNat ['7'] * 2 ^ 10 % W64) :=
  ⟨parse_uint64_unit_suffixes.2.2.2.1 ['7'] (by decide) (of_decide_eq_true rfl)
     (by decide),
   parse_uint64_unit_suffixes.2.2.2.2 ['7'] 'k' 10 (by decide) (of_decide_eq_true rfl)
     (by decide) (of_decide_eq_true rfl)⟩

/-- C10: when the character after the numeral is not a recognized suffix
letter, both numeral coercers silently ignore it and everything after it,
returning the bare numeral; `4x` coerces to 4 (unsigned path), `1t` to 1
(signed path, which has no `t` suffix). -/
theorem trailing_non_suffix_ignored :
    (∀ (ds rest : List Char) (c : Char), ds ≠ [] → (∀ x ∈ ds, x.isDigit = true) →
        c.isDigit = false → c ∉ ['k', 'K', 'm', 'M', 'g', 'G', 't', 'T'] →
        digitsToNat ds < W64 →
        ParseUint64 (String.mk (ds ++ c :: rest)) = .ok (digitsToNat ds)) ∧
    (∀ (ds rest : List Char) (c : Char), ds ≠ [] → (∀ x ∈ ds, x.isDigit = true) →
        c.isDigit = false → c ∉ ['k', 'K', 'm', 'M', 'g', 'G'] →
        digitsToNat ds ≤ 2 ^ 31 - 1 →
        ParseInt (String.mk (ds ++ c :: rest)) = .ok ((digitsToNat ds : Int))) ∧
    ParseUint64 "4x" = .ok 4 ∧
    ParseInt "1t" = .ok 1 := by
  refine ⟨?pu64, ?pint, rfl, rfl⟩
  · intro ds rest c hne hds hcd hcs hlt
    rw [ParseUint64_after_digits ds c rest hne hds hcd hlt]
    simp only [List.mem_cons, List.not_mem_nil, or_false, not_or] at hcs
    obtain ⟨nsk, nsK, nsm, nsM, nsg, nsG, nst, nsT⟩ := hcs
    rw [if_neg (not_or.mpr ⟨nsk, nsK⟩), if_neg (not_or.mpr ⟨nsm, nsM⟩),
      if_neg (not_or.mpr ⟨nsg, nsG⟩), if_neg (not_or.mpr ⟨nst, nsT⟩)]
  · intro ds rest c hne hds hcd hcs hle
    rw [ParseInt_after_digits ds c rest hne hds hcd hle]
    simp only [List.mem_cons, List.not_mem_nil, or_false, not_or] at hcs
    obtain ⟨nik, niK, nim, niM, nig, niG⟩ := hcs
    rw [if_neg (not_or.mpr ⟨nik, niK⟩), if_neg (not_or.mpr ⟨nim, niM⟩),
      if_neg (not_or.mpr ⟨nig, niG⟩)]

/-- Witness for C10: the general clauses at `4x` and `1t`. -/
theorem trailing_non_suffix_ignored_witness :
    ParseUint64 (String.mk (['4'] ++ 'x' :: [])) = .ok (digitsToNat ['4']) ∧
    ParseInt (String.mk (['1'] ++ 't' :: [])) = .ok ((digitsToNat ['1'] : Int)) :=
  ⟨trailing_non_suffix_ignored.1 ['4'] [] 'x' (by decide) (of_decide_eq_true rfl)
     (by decide) (of_decide_eq_true rfl) (by decide),
   trailing_non_suffix_ignored.2.1 ['1'] [] 't' (by decide) (of_decide_eq_true rfl)
     (by decide) (of_decide_eq_true rfl) (by decide)⟩
theorem skipSpaceAux_ge (l : List Char) (idx : Nat) : idx ≤ skipSpaceAux l idx := by
  induction l generalizing idx with
  | nil => exact le_refl _
  | cons x xs ih =>
    rw [skipSpaceAux]
    by_cases hx : isspace x
    · rw [if_pos hx]
      exact le_trans (Nat.le_succ _) (ih (idx + 1))
    · rw [if_neg hx]

theorem skipSpace_ge (s : List Char) (pos : Nat) : pos ≤ skipSpace s pos :=
  skipSpaceAux_ge _ _

theorem braceScanAux_ge {l : List Char} {i count r : Nat}
    (h : braceScanAux l i count = some r) : i ≤ r := by
  induction l generalizing i count with
  | nil => cases h
  | cons x xs ih =>
    rw [braceScanAux] at h
    split_ifs at h with h1 h2 h3
    · exact le_trans (Nat.le_succ _) (ih h)
    · cases h
      exact le_refl _
    · exact le_trans (Nat.le_succ _) (ih h)
    · exact le_trans (Nat.le_succ _) (ih h)

theorem braceScan_ge {opts : List Char} {bracePos count r : Nat}
    (h : braceScan opts bracePos count = some r) : bracePos ≤ r :=
  braceScanAux_ge h

/-- C9: the scanning loop strictly consumes input on every iteration, so
fuel exceeding the unconsumed length never runs out: the tokenizer
terminates on every input, bounded by the input length. -/
theorem string_to_map_loop_progress :
    ∀ (fuel : Nat) (opts : List Char) (pos : Nat) (m : List (String × String)),
      opts.length - pos < fuel → stringToMapLoop fuel opts pos m ≠ none := by
  intro fuel
  induction fuel with
  | zero => intro opts pos m h; omega
  | succ fuel ih =>
    intro opts pos m h
    rw [stringToMapLoop]
    by_cases hpos : pos < opts.length
    · rw [if_pos hpos]
      cases hf : strFind opts '=' pos with
      | none => simp
      | some eqPos =>
        try simp only [hf]
        have hfb := strFind_some hf
        cases htk : trim (substr opts pos (eqPos - pos)) with
        | none => simp [htk]
        | some keyL =>
          try simp only [htk]
          by_cases hke : keyL.isEmpty
          · rw [if_pos hke]
            simp
          · rw [if_neg hke]
            have hp1 : pos < skipSpace opts (eqPos + 1) :=
              lt_of_lt_of_le (Nat.lt_succ_of_le hfb.1) (skipSpace_ge _ _)
            by_cases h1 : skipSpace opts (eqPos + 1) < opts.length
            · rw [dif_pos h1]
              by_cases hbr : opts[skipSpace opts (eqPos + 1)] = '{'
              · rw [if_pos hbr]
                cases hb : braceScan opts (skipSpace opts (eqPos + 1) + 1) 1 with
                | none => simp [hb]
                | some bracePos =>
                  try simp only [hb]
                  have hbge := braceScan_ge hb
                  cases htv : trim (substr opts (skipSpace opts (eqPos + 1) + 1)
                      (bracePos - skipSpace opts (eqPos + 1) - 1)) with
                  | none => simp [htv]
                  | some valL =>
                    try simp only [htv]
                    by_cases hsc : skipSpace opts (bracePos + 1) < opts.length ∧
                        opts.getD (skipSpace opts (bracePos + 1)) ' ' ≠ ';'
                    · rw [if_pos hsc]
                      simp
                    · rw [if_neg hsc]
                      have hge : pos < skipSpace opts (bracePos + 1) := by
                        have := skipSpace_ge opts (bracePos + 1)
                        omega
                      exact ih opts _ _ (by omega)
              · rw [if_neg hbr]
                cases hsf : strFind opts ';' (skipSpace opts (eqPos + 1)) with
                | none =>
                  try simp only [hsf]
                  cases htv : trim (substr opts (skipSpace opts (eqPos + 1))
                      (opts.length - skipSpace opts (eqPos + 1))) with
                  | none => simp [htv]
                  | some valL => simp [htv]
                | some scPos =>
                  try simp only [hsf]
                  have hsb := strFind_some hsf
                  cases htv : trim (substr opts (skipSpace opts (eqPos + 1))
                      (scPos - skipSpace opts (eqPos + 1))) with
                  | none => simp [htv]
                  | some valL =>
                    try simp only [htv]
                    exact ih opts _ _ (by omega)
            · rw [dif_neg h1]
              simp
    · rw [if_neg hpos]
      simp

/-- Key column of a map update: an existing key keeps the key set, a new
key is appended. -/
theorem mapSet_keys (m : List (String × String)) (k v : String) :
    (mapSet m k v).map Prod.fst =
      if k ∈ m.map Prod.fst then m.map Prod.fst else m.map Prod.fst ++ [k] := by
  induction m with
  | nil => simp [mapSet]
  | cons kv rest ih =>
    obtain ⟨k', v'⟩ := kv
    rw [mapSet]
    by_cases he : k' = k
    · rw [if_pos he]
      subst he
      simp
    · rw [if_neg he]
      simp only [List.map_cons, List.mem_cons]
      rw [ih]
      by_cases hm : k ∈ rest.map Prod.fst
      · rw [if_pos hm, if_pos (Or.inr hm)]
      · rw [if_neg hm, if_neg (by
          simp only [not_or]
          exact ⟨fun hh => he hh.symm, hm⟩)]
        simp

/-- A map update keeps the keys unique. -/
theorem mapSet_nodup {m : List (String × String)} (k v : String)
    (h : (m.map Prod.fst).Nodup) : ((mapSet m k v).map Prod.fst).Nodup := by
  rw [mapSet_keys]
  by_cases hm : k ∈ m.map Prod.fst
  · rw [if_pos hm]
    exact h
  · rw [if_neg hm]
    rw [List.nodup_append]
    refine ⟨h, List.nodup_singleton _, ?_⟩
    intro a ha hb
    rw [List.mem_singleton] at hb
    subst hb
    exact hm ha

/-- The scanning loop preserves uniqueness of the accumulated map's keys. -/
theorem stringToMapLoop_nodup :
    ∀ (fuel : Nat) (opts : List Char) (pos : Nat) (m r : List (String × String)),
      (m.map Prod.fst).Nodup →
      stringToMapLoop fuel opts pos m = some (.ok r) → (r.map Prod.fst).Nodup := by
  intro fuel
  induction fuel with
  | zero => intro opts pos m r hm h; cases h
  | succ fuel ih =>
    intro opts pos m r hm h
    rw [stringToMapLoop] at h
    by_cases hpos : pos < opts.length
    · rw [if_pos hpos] at h
      cases hf : strFind opts '=' pos with
      | none => simp only [hf] at h; exact absurd h (by simp)
      | some eqPos =>
        simp only [hf] at h
        cases htk : trim (substr opts pos (eqPos - pos)) with
        | none => simp only [htk] at h; simp at h
        | some keyL =>
          simp only [htk] at h
          by_cases hke : keyL.isEmpty
          · rw [if_pos hke] at h
            simp at h
          · rw [if_neg hke] at h
            by_cases h1 : skipSpace opts (eqPos + 1) < opts.length
            · rw [dif_pos h1] at h
              by_cases hbr : opts[skipSpace opts (eqPos + 1)] = '{'
              · rw [if_pos hbr] at h
                cases hb : braceScan opts (skipSpace opts (eqPos + 1) + 1) 1 with
                | none => simp only [hb] at h; simp at h
                | some bracePos =>
                  simp only [hb] at h
                  cases htv : trim (substr opts (skipSpace opts (eqPos + 1) + 1)
                      (bracePos - skipSpace opts (eqPos + 1) - 1)) with
                  | none => simp only [htv] at h; simp at h
                  | some valL =>
                    simp only [htv] at h
                    by_cases hsc : skipSpace opts (bracePos + 1) < opts.length ∧
                        opts.getD (skipSpace opts (bracePos + 1)) ' ' ≠ ';'
                    · rw [if_pos hsc] at h
                      simp at h
                    · rw [if_neg hsc] at h
                      exact ih _ _ _ _ (mapSet_nodup _ _ hm) h
              · rw [if_neg hbr] at h
                cases hsf : strFind opts ';' (skipSpace opts (eqPos + 1)) with
                | none =>
                  simp only [hsf] at h
                  cases htv : trim (substr opts (skipSpace opts (eqPos + 1))
                      (opts.length - skipSpace opts (eqPos + 1))) with
                  | none => simp only [htv] at h; simp at h
                  | some valL =>
                    simp only [htv] at h
                    simp only [Option.some.injEq, Except.ok.injEq] at h
                    subst h
                    exact mapSet_nodup _ _ hm
                | some scPos =>
                  simp only [hsf] at h
                  cases htv : trim (substr opts (skipSpace opts (eqPos + 1))
                      (scPos - skipSpace opts (eqPos + 1))) with
                  | none => simp only [htv] at h; simp at h
                  | some valL =>
                    simp only [htv] at h
                    exact ih _ _ _ _ (mapSet_nodup _ _ hm) h
            · rw [dif_neg h1] at h
              simp only [Option.some.injEq, Except.ok.injEq] at h
              subst h
              exact mapSet_nodup _ _ hm
    · rw [if_neg hpos] at h
      simp only [Option.some.injEq, Except.ok.injEq] at h
      subst h
      exact hm

/-- The suffix scan misses when the character is absent. -/
theorem strFindAux_none {l : List Char} {c : Char} (idx : Nat) (h : c ∉ l) :
    strFindAux l c idx = none := by
  induction l generalizing idx with
  | nil => rfl
  | cons x xs ih =>
    rw [strFindAux]
    rw [if_neg (by
      intro he
      exact h (by rw [← he]; exact List.mem_cons_self x xs))]
    exact ih _ (fun hm => h (List.mem_cons_of_mem _ hm))

/-- `find` returns `npos` when the character does not occur at or after
`pos`. -/
theorem strFind_none {s : List Char} {c : Char} {pos : Nat} (h : c ∉ s.drop pos) :
    strFind s c pos = none := by
  unfold strFind
  exact strFindAux_none pos h

/-- C8: whenever the unconsumed input is non-empty and contains no `=`,
the tokenizer fails with the missing-`=` grammar error; in particular the
input `foo` does. -/
theorem missing_equals_is_error :
    (∀ (opts : List Char) (pos : Nat) (m : List (String × String)) (fuel : Nat),
        pos < opts.length → '=' ∉ opts.drop pos → 0 < fuel →
        stringToMapLoop fuel opts pos m =
          some (.error (.invalidArgument "Mismatched key value pair, '=' expected"))) ∧
    StringToMap "foo" =
      .error (.invalidArgument "Mismatched key value pair, '=' expected") := by
  constructor
  · intro opts pos m fuel hpos hno hf
    cases fuel with
    | zero => exact absurd hf (by decide)
    | succ f => rw [stringToMapLoop, if_pos hpos, strFind_none hno]
  · rfl

/-- C6: the map returned by tokenization (built fresh from `[]` by this
pure parse call) has unique keys, and a repeated key collapses to its last
occurrence's value: `a=1;a=2` tokenizes to exactly `[(a, 2)]`. -/
theorem string_to_map_unique_keys :
    (∀ (s : String) (m : List (String × String)),
        StringToMap s = .ok m → (m.map Prod.fst).Nodup) ∧
    StringToMap "a=1;a=2" = .ok [("a", "2")] := by
  constructor
  · intro s m h
    unfold StringToMap at h
    cases ht : trim s.toList with
    | none => simp only [ht] at h; cases h
    | some opts =>
      simp only [ht] at h
      cases hl : stringToMapLoop (opts.length + 1) opts 0 [] with
      | none => simp only [hl, Option.getD_none] at h; cases h
      | some r =>
        simp only [hl, Option.getD_some] at h
        cases r with
        | error e => cases h
        | ok r' =>
          cases h
          exact stringToMapLoop_nodup _ _ _ _ _ (by simp) hl
  · rfl

/-- Witness for C9: progress at a concrete state. -/
theorem string_to_map_loop_progress_witness :
    stringToMapLoop 1 [] 0 [] ≠ none :=
  string_to_map_loop_progress 1 [] 0 [] (by decide)

/-- Witness for C8: the loop on `foo` at a concrete state. -/
theorem missing_equals_is_error_witness :
    stringToMapLoop 1 "foo".toList 0 [] =
      some (.error (.invalidArgument "Mismatched key value pair, '=' expected")) :=
  missing_equals_is_error.1 "foo".toList 0 [] 1 (by decide) (of_decide_eq_true rfl)
    (by decide)

/-- Witness for C6: unique keys of a concrete tokenization. -/
theorem string_to_map_unique_keys_witness :
    (([("a", "2")] : List (String × String)).map Prod.fst).Nodup :=
  string_to_map_unique_keys.1 "a=1;a=2" [("a", "2")] rfl
